import Mathlib

/-!
Verification of the convective-adjustment core (`konrad/convection.py`).

The Python module is shallowly embedded below.  Numeric arrays become
`List ℚ` (exact rationals standing for the float arrays), external
collaborators (the typhon density function, the humidity model, the
atmosphere height update, the vmr-to-mixing-ratio conversion) are function
parameters, and fallible code returns `Except String`.  The profile
construction functions are stated over a general linear ordered field so
the relaxed variant can be analysed over `ℝ` (its mixing fraction uses
`exp`).
-/

set_option linter.unusedVariables false

open Filter

namespace Konrad

/-- Modelled from the spec: `konrad.constants` is not part of the reviewed
sources; `g` is the gravitational acceleration used by
`energy_difference_dry` (line 58 of `convection.py`). -/
def g : ℚ := 980665 / 100000

/-- Modelled from the spec: `konrad.constants.earth_standard_gravity`, used
by `pressure_lapse_rate` (line 133 of `convection.py`). -/
def earth_standard_gravity : ℚ := 980665 / 100000

/-- Modelled from the spec: `konrad.constants.Lv`, the latent heat of
vaporization used by `latent_heat_difference` (line 80). -/
def Lv : ℚ := 2501000

section ListUtilities

variable {α : Type} [LinearOrderedField α]

/-- `np.diff`: successive differences of a list. -/
def npDiff : List α → List α
  | x :: y :: rest => (y - x) :: npDiff (y :: rest)
  | _ => []

/-- Helper for `cumsum`: running sums starting from accumulator `s`. -/
def cumsumFrom (s : α) : List α → List α
  | [] => []
  | x :: xs => (s + x) :: cumsumFrom (s + x) xs

/-- `np.cumsum`. -/
def cumsum (l : List α) : List α := cumsumFrom 0 l

/-- Interior and right-edge part of `np.gradient`. -/
def npGradientAux (prev cur : α) : List α → List α
  | [] => [cur - prev]
  | nxt :: rest => (nxt - prev) / 2 :: npGradientAux cur nxt rest

/-- `np.gradient` of a 1-d array: one-sided differences at both ends and
central differences in the interior (numpy needs at least two points). -/
def npGradient (l : List α) : List α :=
  match l with
  | [] => []
  | [_] => []
  | x0 :: x1 :: rest => (x1 - x0) :: npGradientAux x0 x1 rest

/-- Elementwise combination of three lists (numpy broadcasting of three
equal-length arrays). -/
def zipWith3 (f : α → α → α → α) : List α → List α → List α → List α
  | a :: as, b :: bs, c :: cs => f a b c :: zipWith3 f as bs cs
  | _, _, _ => []

/-- `np.min` of a nonempty array (`0` as a junk value on the empty list,
where numpy would raise). -/
def minList : List α → α
  | [] => 0
  | x :: xs => xs.foldl min x

/-- `np.argmax` of a boolean array: index of the first `true`, or `0` when
every entry is `false`. -/
def npArgmaxBool (l : List Bool) : ℕ :=
  match l.findIdx? (fun b => b) with
  | some i => i
  | none => 0

/-- Python list indexing: a negative index counts from the end. Out of
range yields `0` where Python would raise (unused by the claims). -/
def pyGet (l : List α) (i : ℤ) : α :=
  if i < 0 then l.getD (l.length - (-i).toNat) 0 else l.getD i.toNat 0

/-- Index (from the end of the recursion, i.e. the largest list index) of
the last position where the first list strictly exceeds the second —
`np.max(np.where(a > b))` on the zipped prefix of the two arrays;
`none` when no position exceeds (`np.any(a > b)` is false). -/
def lastExceed? [DecidableRel ((· < ·) : α → α → Prop)] :
    List α → List α → Option ℕ
  | a :: as, b :: bs =>
    match lastExceed? as bs with
    | some i => some (i + 1)
    | none => if b < a then some 0 else none
  | _, _ => none

end ListUtilities

section Interpolation

/-- One linear segment through two points. -/
def lineThrough (x0 y0 x1 y1 x : ℚ) : ℚ :=
  y0 + (y1 - y0) * (x - x0) / (x1 - x0)

/-- Piecewise-linear interpolation over points sorted by abscissa, with
linear extrapolation from the outermost segments
(`scipy.interpolate.interp1d` with `fill_value="extrapolate"`). -/
def interpSegs : List (ℚ × ℚ) → ℚ → ℚ
  | [], _ => 0
  | [(_, y0)], _ => y0
  | (x0, y0) :: (x1, y1) :: rest, x =>
    if x ≤ x1 then lineThrough x0 y0 x1 y1 x
    else
      match rest with
      | [] => lineThrough x0 y0 x1 y1 x
      | r :: rs => interpSegs ((x1, y1) :: r :: rs) x

/-- Insertion into a list of points sorted by abscissa. -/
def insortPt (a : ℚ × ℚ) : List (ℚ × ℚ) → List (ℚ × ℚ)
  | [] => [a]
  | b :: bs => if a.1 ≤ b.1 then a :: b :: bs else b :: insortPt a bs

/-- Sort points by abscissa (scipy sorts its input when
`assume_sorted=False`, the default). -/
def sortPts : List (ℚ × ℚ) → List (ℚ × ℚ)
  | [] => []
  | a :: as => insortPt a (sortPts as)

/-- `interp1d(xs, ys, fill_value="extrapolate")(x)`. -/
def interp1dExtrapolate (xs ys : List ℚ) (x : ℚ) : ℚ :=
  interpSegs (sortPts (xs.zip ys)) x

/-- `interp1d(xs, ys)(x)` with the default `bounds_error=True`: queries
outside the data range raise a `ValueError`. -/
def interp1dBounded (xs ys : List ℚ) (x : ℚ) : Except String ℚ :=
  match sortPts (xs.zip ys) with
  | [] => Except.error "x and y arrays must have at least 2 entries"
  | (x0, y0) :: rest =>
    match rest.getLast? with
    | none => Except.error "x and y arrays must have at least 2 entries"
    | some (xn, _) =>
      if x < x0 then
        Except.error "A value in x_new is below the interpolation range."
      else if xn < x then
        Except.error "A value in x_new is above the interpolation range."
      else Except.ok (interpSegs ((x0, y0) :: rest) x)

end Interpolation

/-! ## Module-level functions of `convection.py` -/

/-- `energy_difference_dry` (lines 44-65): dry static energy difference
between two (profile, surface temperature) states,
`-Σ Cp/g · dT · Δphlev + eff_Cp_s · dT_s`. -/
def energy_difference_dry (T_2 T_1 : List ℚ) (sst_2 sst_1 : ℚ)
    (phlev Cp : List ℚ) (eff_Cp_s : ℚ) : ℚ :=
  let dT := List.zipWith (· - ·) T_2 T_1
  let dT_s := sst_2 - sst_1
  (-(zipWith3 (fun cp dt dph => cp / g * dt * dph) Cp dT (npDiff phlev)).sum)
    + eff_Cp_s * dT_s

/-- `latent_heat_difference` (lines 68-83): `Σ (h2o_2 - h2o_1) * Lv`. -/
def latent_heat_difference (h2o_2 h2o_1 : List ℚ) : ℚ :=
  ((List.zipWith (· - ·) h2o_2 h2o_1).map (· * Lv)).sum

/-- `interp_variable` (lines 86-113): locate the level where the
convective heating crosses `lim` and linearly interpolate `v` there.
`v` is the variable array being interpolated.  Python's negative indexing
applies to `convective_heating[contop_index - 1]` when `contop_index = 0`. -/
def interp_variable (v convective_heating : List ℚ) (lim : ℚ) :
    Except String ℚ :=
  let positive_i := npArgmaxBool (convective_heating.map (fun x => decide (lim < x)))
  let contop_index :=
    npArgmaxBool ((convective_heating.drop positive_i).map (fun x => decide (x < lim)))
      + positive_i
  let heat_array := [pyGet convective_heating ((contop_index : ℤ) - 1),
                     pyGet convective_heating (contop_index : ℤ)]
  let var_array := [pyGet v ((contop_index : ℤ) - 1),
                    pyGet v (contop_index : ℤ)]
  interp1dBounded heat_array var_array lim

/-- `pressure_lapse_rate` (lines 116-135).  The typhon density function is
an external collaborator and is passed in as `dens`. -/
def pressure_lapse_rate (dens : ℚ → ℚ → ℚ) (p phlev T lapse : List ℚ) :
    List ℚ :=
  let density_p := List.zipWith dens p T
  let density := phlev.dropLast.map (interp1dExtrapolate p density_p)
  List.zipWith (fun la d => -la / (earth_standard_gravity * d)) lapse density

/-! ## Profile construction -/

section Profiles

variable {α : Type} [LinearOrderedField α]
variable [DecidableRel ((· < ·) : α → α → Prop)]

/-- The `dp` used for the lapse-rate integral (line 358):
`np.hstack((p[0] - phlev[0], np.diff(p)))`. -/
def dpLapse (p phlev : List α) : List α :=
  (p.getD 0 0 - phlev.getD 0 0) :: npDiff p

/-- The unclipped lapse-rate candidate profile
`surfaceT - np.cumsum(dp_lapse * lp)` (line 359). -/
def lapseCandidate (p phlev : List α) (surfaceT : α) (lp : List α) :
    List α :=
  (cumsum (List.zipWith (· * ·) (dpLapse p phlev) lp)).map (surfaceT - ·)

/-- `HardAdjustment.convective_profile` (lines 337-369): keep the lapse
rate candidate up to the highest level where it exceeds the radiative
profile, restore the radiative values above, and return the radiative
profile unchanged when the candidate exceeds it nowhere. -/
def convective_profile (T_rad p phlev : List α) (surfaceT : α)
    (lp : List α) : List α :=
  let T_con := lapseCandidate p phlev surfaceT lp
  match lastExceed? T_con T_rad with
  | some contop => T_con.take (contop + 1) ++ T_rad.drop (contop + 1)
  | none => T_rad

end Profiles

/-! ## Atmosphere and surface state -/

/-- The fields of the atmosphere container read or written by the
convection module.  `T`, `H2O` and `z` stand for the current state
(`atmosphere['T'][-1]` etc.); `Cp` is the result of the external
`get_heat_capacity()` accessor. -/
structure Atm where
  plev : List ℚ
  phlev : List ℚ
  T : List ℚ
  H2O : List ℚ
  z : List ℚ
  Cp : List ℚ
deriving DecidableEq

/-- The surface state: indexable `temperature`, attribute `heat_capacity`,
and the `SurfaceFixedTemperature` subtype test. -/
structure Surf where
  temperature : ℚ
  heat_capacity : ℚ
  fixedTemperature : Bool
deriving DecidableEq

/-- `update_temporary_atmosphere` (lines 138-153): write the new
temperature, let the (external) humidity model re-equilibrate the water
content, recompute the (external) height. -/
def update_temporary_atmosphere (hum : Atm → List ℚ) (height : Atm → List ℚ)
    (atmosphere : Atm) (T : List ℚ) : Atm :=
  let a1 := { atmosphere with T := T }
  let a2 := { a1 with H2O := hum a1 }
  { a2 with z := height a2 }

/-- `water_vapour_profile` (lines 156-173): mass of water vapour per
layer, `vmr2mixing_ratio(H2O) * density(plev, T) * gradient(z)`.
The typhon conversions `dens` and `mix` are external collaborators. -/
def water_vapour_profile (dens : ℚ → ℚ → ℚ) (mix : ℚ → ℚ) (a : Atm) :
    List ℚ :=
  let h2o := a.H2O.map mix
  let rho := List.zipWith dens a.plev a.T
  let dz := npGradient a.z
  zipWith3 (fun h r d => h * r * d) h2o rho dz

/-- The scalar energy difference of a candidate pair
`(T_con, surfaceT)` against the radiatively updated atmosphere
(dry term, lines 413-415) and the previous-timestep water content
(latent term, lines 408-421). -/
def pairEnergyDiff (hum height : Atm → List ℚ) (dens : ℚ → ℚ → ℚ)
    (mix : ℚ → ℚ) (atmosphere atmosphere_old : Atm) (surface : Surf)
    (T_con : List ℚ) (surfaceT : ℚ) : ℚ :=
  let atmosphere_con := update_temporary_atmosphere hum height atmosphere T_con
  let h2o_old := water_vapour_profile dens mix atmosphere_old
  let h2o_new := water_vapour_profile dens mix atmosphere_con
  let diff := energy_difference_dry T_con atmosphere.T surfaceT
    surface.temperature atmosphere.phlev atmosphere.Cp surface.heat_capacity
  let wet_diff := latent_heat_difference h2o_new h2o_old
  diff + wet_diff

/-- `HardAdjustment.create_and_check_profile` (lines 371-423): build the
candidate profile for `surfaceT` and report its total (dry + latent)
energy difference. -/
def create_and_check_profile (hum height : Atm → List ℚ)
    (dens : ℚ → ℚ → ℚ) (mix : ℚ → ℚ) (atmosphere atmosphere_old : Atm)
    (surface : Surf) (surfaceT : ℚ) (lp : List ℚ) : List ℚ × ℚ :=
  let T_con := convective_profile atmosphere.T atmosphere.plev
    atmosphere.phlev surfaceT lp
  (T_con, pairEnergyDiff hum height dens mix atmosphere atmosphere_old
    surface T_con surfaceT)

/-- The latent-term reference following the words of the specification
(claim C8): the reference water-vapour content is taken from the same
radiative/reference state as the dry term, i.e. from the current
radiatively updated `atmosphere` instead of `atmosphere_old`. -/
def create_and_check_profile_claimC8 (hum height : Atm → List ℚ)
    (dens : ℚ → ℚ → ℚ) (mix : ℚ → ℚ) (atmosphere atmosphere_old : Atm)
    (surface : Surf) (surfaceT : ℚ) (lp : List ℚ) : List ℚ × ℚ :=
  let T_con := convective_profile atmosphere.T atmosphere.plev
    atmosphere.phlev surfaceT lp
  let atmosphere_con := update_temporary_atmosphere hum height atmosphere T_con
  let h2o_rad := water_vapour_profile dens mix atmosphere
  let h2o_new := water_vapour_profile dens mix atmosphere_con
  let diff := energy_difference_dry T_con atmosphere.T surfaceT
    surface.temperature atmosphere.phlev atmosphere.Cp surface.heat_capacity
  (T_con, diff + latent_heat_difference h2o_new h2o_rad)

/-! ## The regula-falsi root finder (lines 299-335) -/

/-- The local state of the root-finding loop in
`HardAdjustment.convective_adjustment`: the bracketing surface
temperatures and energy differences, the last computed candidate profile
and the last proposed surface temperature. -/
structure RFState where
  surfaceTneg : ℚ
  surfaceTpos : ℚ
  diff_neg : ℚ
  diff_pos : ℚ
  T_con : List ℚ
  surfaceT : ℚ
deriving DecidableEq

/-- The surface temperature proposed at the top of each loop iteration
(lines 312-313). -/
def proposedT (st : RFState) : ℚ :=
  st.surfaceTneg + (st.surfaceTpos - st.surfaceTneg) * (-st.diff_neg)
    / (-st.diff_neg + st.diff_pos)

/-- One iteration of the loop body (lines 312-326): propose a surface
temperature, evaluate the candidate, and replace the bound whose sign
matches the evaluated difference. -/
def convStep (eval : ℚ → List ℚ × ℚ) (st : RFState) : RFState :=
  let surfaceT := proposedT st
  let r := eval surfaceT
  if 0 < r.2 then
    { st with diff_pos := r.2, surfaceTpos := surfaceT, T_con := r.1,
              surfaceT := surfaceT }
  else
    { st with diff_neg := r.2, surfaceTneg := surfaceT, T_con := r.1,
              surfaceT := surfaceT }

/-- The `while` guard (line 309):
`diff_pos >= near_zero and np.abs(diff_neg) >= near_zero`. -/
abbrev loopCond (near_zero : ℚ) (st : RFState) : Prop :=
  near_zero ≤ st.diff_pos ∧ near_zero ≤ |st.diff_neg|

/-- The message of the `ValueError` raised at iteration 100 (line 331). -/
def noProfileMsg : String :=
  "No energy conserving convective profile can be found"

/-- The root-finding loop (lines 308-335).  `fuel` counts the remaining
loop bodies before the `counter == 100` check fires: the call from
`convective_adjustment` passes `99`, so the body that runs with
`fuel = 0` is the 100th, after which the `ValueError` is raised without
re-testing the guard. -/
def adjustLoop (eval : ℚ → List ℚ × ℚ) (near_zero : ℚ) :
    ℕ → RFState → Except String (List ℚ × ℚ)
  | fuel, st =>
    if loopCond near_zero st then
      let st' := convStep eval st
      match fuel with
      | 0 => Except.error noProfileMsg
      | f + 1 => adjustLoop eval near_zero f st'
    else Except.ok (st.T_con, st.surfaceT)

/-! ## `HardAdjustment.convective_adjustment` (lines 224-335) -/

/-- The pressure lapse rate computed at the top of
`convective_adjustment` (line 261). -/
def caLp (dens : ℚ → ℚ → ℚ) (atmosphere : Atm) (lapse : List ℚ) : List ℚ :=
  pressure_lapse_rate dens atmosphere.plev atmosphere.phlev atmosphere.T lapse

/-- The candidate evaluation used by `convective_adjustment`:
`create_and_check_profile` at a given surface temperature. -/
def caEval (hum height : Atm → List ℚ) (dens : ℚ → ℚ → ℚ) (mix : ℚ → ℚ)
    (atmosphere atmosphere_old : Atm) (surface : Surf) (lapse : List ℚ) :
    ℚ → List ℚ × ℚ :=
  fun surfaceT => create_and_check_profile hum height dens mix atmosphere
    atmosphere_old surface surfaceT (caLp dens atmosphere lapse)

/-- The loop state at entry (lines 279-308): the current surface
temperature is the positive bound, the coldest radiative temperature the
negative bound. -/
def caInit (hum height : Atm → List ℚ) (dens : ℚ → ℚ → ℚ) (mix : ℚ → ℚ)
    (atmosphere atmosphere_old : Atm) (surface : Surf) (lapse : List ℚ) :
    RFState :=
  let r0 := caEval hum height dens mix atmosphere atmosphere_old surface
    lapse surface.temperature
  { surfaceTneg := minList atmosphere.T
    surfaceTpos := surface.temperature
    diff_neg := surface.heat_capacity * (minList atmosphere.T - surface.temperature)
    diff_pos := r0.2
    T_con := r0.1
    surfaceT := surface.temperature }

/-- `HardAdjustment.convective_adjustment` (lines 224-335): fixed-surface
bypass, the two early exits, then the regula-falsi loop. -/
def convective_adjustment (hum height : Atm → List ℚ) (dens : ℚ → ℚ → ℚ)
    (mix : ℚ → ℚ) (atmosphere atmosphere_old : Atm) (lapse : List ℚ)
    (surface : Surf) : Except String (List ℚ × ℚ) :=
  if surface.fixedTemperature then
    Except.ok (convective_profile atmosphere.T atmosphere.plev
      atmosphere.phlev surface.temperature (caLp dens atmosphere lapse),
      surface.temperature)
  else
    let near_zero := surface.heat_capacity / 10 ^ 13
    let r0 := caEval hum height dens mix atmosphere atmosphere_old surface
      lapse surface.temperature
    if r0.2 < near_zero then Except.ok (r0.1, surface.temperature)
    else
      let surfaceTneg := minList atmosphere.T
      let diff_neg := surface.heat_capacity * (surfaceTneg - surface.temperature)
      if |diff_neg| < near_zero then Except.ok (r0.1, surfaceTneg)
      else
        adjustLoop (caEval hum height dens mix atmosphere atmosphere_old
          surface lapse) near_zero 99
          (caInit hum height dens mix atmosphere atmosphere_old surface lapse)

/-! ## Convective-top diagnostics (lines 425-462) -/

/-- The convective heating rate `(T_con - T_rad) / timestep` (line 442). -/
def convectiveHeating (T_rad T_con : List ℚ) (timestep : ℚ) : List ℚ :=
  List.zipWith (fun tc tr => (tc - tr) / timestep) T_con T_rad

/-- `HardAdjustment.update_convective_top` (lines 425-462): the triple of
diagnostics `(convective_top_plev, convective_top_temperature,
convective_top_index)`; `none` stands for the `np.nan` sentinel. -/
def update_convective_top (T_rad T_con p : List ℚ) (timestep lim : ℚ) :
    Except String (Option ℚ × Option ℚ × Option ℚ) :=
  let convective_heating := convectiveHeating T_rad T_con timestep
  if convective_heating.any (fun x => decide (lim < x)) then do
    let contop_p ← interp_variable p convective_heating lim
    let contop_T ← interp_variable T_con convective_heating lim
    let contop_index ← interp_variable
      ((List.range p.length).map (fun n => (n : ℚ))) convective_heating lim
    Except.ok (some contop_p, some contop_T, some contop_index)
  else Except.ok (none, none, none)

/-- `HardAdjustment.stabilize` (lines 202-222).  Line 215 passes
`T_old=T_old` to `convective_adjustment`, but no name `T_old` is bound in
the scope of `stabilize` (a leftover of the unresolved merge whose
conflict markers are still visible in the docstring at lines 243-251, and
`convective_adjustment` accepts no `T_old` parameter either), so every
call raises a `NameError` before any state is read beyond `T` and `plev`
and before any mutation of the atmosphere or surface. -/
def stabilize (atmosphere atmosphere_old : Atm) (hum : Atm → List ℚ)
    (lapse : List ℚ) (surface : Surf) (timestep : ℚ) :
    Except String (Atm × Surf) :=
  Except.error "NameError: name T_old is not defined"

/-! ## The relaxed variant (lines 480-538), over the reals -/

/-- `RelaxedAdjustment.get_convective_tau` (lines 493-508): the supplied
timescale array, or the default `tau0 * exp(p[0] / p)`. -/
noncomputable def get_convective_tau (convective_tau : Option (List ℝ))
    (p : List ℝ) : List ℝ :=
  match convective_tau with
  | some tau => tau
  | none => p.map (fun pi => (1 / 24) * Real.exp (p.headI / pi))

/-- `RelaxedAdjustment.convective_profile` (lines 510-538): blend the
radiative profile and the unclipped lapse-rate candidate with the mixing
fraction `tf = 1 - exp(-timestep / tau)`. -/
noncomputable def relaxed_convective_profile (convective_tau : Option (List ℝ))
    (T_rad p phlev : List ℝ) (surfaceT : ℝ) (lp : List ℝ) (timestep : ℝ) :
    List ℝ :=
  let tau := get_convective_tau convective_tau p
  let tf := tau.map (fun t => 1 - Real.exp (-timestep / t))
  zipWith3 (fun tr f c => tr * (1 - f) + f * c) T_rad tf
    (lapseCandidate p phlev surfaceT lp)

/-! ## Length and indexing lemmas -/

section ListLemmas

variable {α : Type} [LinearOrderedField α]

theorem npDiff_length (l : List α) : (npDiff l).length = l.length - 1 := by
  induction l with
  | nil => simp [npDiff]
  | cons x xs ih =>
    cases xs with
    | nil => simp [npDiff]
    | cons y ys => simpa [npDiff] using ih

theorem cumsumFrom_length (s : α) (l : List α) :
    (cumsumFrom s l).length = l.length := by
  induction l generalizing s with
  | nil => simp [cumsumFrom]
  | cons x xs ih => simp [cumsumFrom, ih]

theorem cumsum_length (l : List α) : (cumsum l).length = l.length :=
  cumsumFrom_length 0 l

theorem dpLapse_length (p phlev : List α) (hp : 0 < p.length) :
    (dpLapse p phlev).length = p.length := by
  cases p with
  | nil => simp at hp
  | cons x xs => simp [dpLapse, npDiff_length]

theorem lapseCandidate_length (p phlev : List α) (surfaceT : α)
    (lp : List α) (hp : 0 < p.length) (hlp : lp.length = p.length) :
    (lapseCandidate p phlev surfaceT lp).length = p.length := by
  simp [lapseCandidate, cumsum_length, dpLapse_length p phlev hp, hlp]

variable [DecidableRel ((· < ·) : α → α → Prop)]

theorem lastExceed?_eq_none_forall {a b : List α}
    (h : lastExceed? a b = none) :
    ∀ i, i < a.length → i < b.length → ¬ b.getD i 0 < a.getD i 0 := by
  induction a generalizing b with
  | nil => intro i hi; simp at hi
  | cons x xs ih =>
    cases b with
    | nil => intro i _ hi; simp at hi
    | cons y ys =>
      rw [lastExceed?] at h
      rcases hxs : lastExceed? xs ys with _ | j
      · rw [hxs] at h
        intro i hi1 hi2
        match i with
        | 0 =>
          intro hlt
          simp only [List.getD_cons_zero] at hlt
          rw [if_pos hlt] at h
          exact Option.some_ne_none 0 h
        | i + 1 =>
          simp only [List.getD_cons_succ]
          exact ih hxs i (by simpa using hi1) (by simpa using hi2)
      · rw [hxs] at h; exact absurd h (Option.some_ne_none _)

theorem lastExceed?_eq_none_of_forall {a b : List α}
    (h : ∀ i, i < a.length → i < b.length → ¬ b.getD i 0 < a.getD i 0) :
    lastExceed? a b = none := by
  induction a generalizing b with
  | nil => cases b <;> rfl
  | cons x xs ih =>
    cases b with
    | nil => rfl
    | cons y ys =>
      rw [lastExceed?]
      have hxs : lastExceed? xs ys = none := by
        apply ih
        intro i hi1 hi2
        simpa using h (i + 1) (by simpa using hi1) (by simpa using hi2)
      rw [hxs]
      have h0 := h 0 (by simp) (by simp)
      simp only [List.getD_cons_zero] at h0
      rw [if_neg h0]

theorem lastExceed?_eq_some {a b : List α} {c : ℕ}
    (h : lastExceed? a b = some c) :
    c < a.length ∧ c < b.length ∧ b.getD c 0 < a.getD c 0 ∧
      ∀ i, c < i → i < a.length → i < b.length →
        ¬ b.getD i 0 < a.getD i 0 := by
  induction a generalizing b c with
  | nil => cases b <;> simp [lastExceed?] at h
  | cons x xs ih =>
    cases b with
    | nil => simp [lastExceed?] at h
    | cons y ys =>
      rw [lastExceed?] at h
      rcases hxs : lastExceed? xs ys with _ | j
      · rw [hxs] at h
        by_cases hyx : y < x
        · rw [if_pos hyx] at h
          obtain rfl : c = 0 := (Option.some_inj.mp h).symm
          refine ⟨by simp, by simp, by simpa using hyx, ?_⟩
          intro i hi0 hi1 hi2
          match i with
          | i + 1 =>
            simp only [List.getD_cons_succ]
            exact lastExceed?_eq_none_forall hxs i (by simpa using hi1)
              (by simpa using hi2)
        · rw [if_neg hyx] at h; exact absurd h (by simp)
      · rw [hxs] at h
        obtain rfl : c = j + 1 := (Option.some_inj.mp h).symm
        obtain ⟨hj1, hj2, hj3, hj4⟩ := ih hxs
        refine ⟨by simpa using hj1, by simpa using hj2, by simpa using hj3, ?_⟩
        intro i hi0 hi1 hi2
        match i with
        | i + 1 =>
          simp only [List.getD_cons_succ]
          exact hj4 i (by omega) (by simpa using hi1) (by simpa using hi2)

end ListLemmas

/-! ## Claim C3: the hard profile construction -/

/-- C3: `HardAdjustment.convective_profile` returns the unmodified
radiative profile when the lapse-rate candidate
`surfaceT - cumsum(dp * lp)` exceeds it at no level; otherwise it returns
the candidate values at and below the highest index where the candidate
exceeds the radiative profile, and the radiative values strictly above
that index. -/
theorem convective_profile_clipping (T_rad p phlev lp : List ℚ)
    (surfaceT : ℚ) (hn : 0 < T_rad.length) (hp : p.length = T_rad.length)
    (hlp : lp.length = T_rad.length) :
    ((∀ i, i < T_rad.length →
        (lapseCandidate p phlev surfaceT lp).getD i 0 ≤ T_rad.getD i 0) →
      convective_profile T_rad p phlev surfaceT lp = T_rad)
    ∧ (∀ j, j < T_rad.length →
        T_rad.getD j 0 < (lapseCandidate p phlev surfaceT lp).getD j 0 →
        ∃ c, c < T_rad.length ∧
          T_rad.getD c 0 < (lapseCandidate p phlev surfaceT lp).getD c 0 ∧
          (∀ i, c < i → i < T_rad.length →
            (lapseCandidate p phlev surfaceT lp).getD i 0 ≤ T_rad.getD i 0) ∧
          (convective_profile T_rad p phlev surfaceT lp).length
            = T_rad.length ∧
          (∀ i, i ≤ c →
            (convective_profile T_rad p phlev surfaceT lp).getD i 0
              = (lapseCandidate p phlev surfaceT lp).getD i 0) ∧
          (∀ i, c < i → i < T_rad.length →
            (convective_profile T_rad p phlev surfaceT lp).getD i 0
              = T_rad.getD i 0)) := by
  have hp0 : 0 < p.length := hp ▸ hn
  have hcl : (lapseCandidate p phlev surfaceT lp).length = T_rad.length := by
    rw [lapseCandidate_length p phlev surfaceT lp hp0 (hlp.trans hp.symm), hp]
  constructor
  · intro h
    have hnone : lastExceed? (lapseCandidate p phlev surfaceT lp) T_rad = none := by
      apply lastExceed?_eq_none_of_forall
      intro i hi1 hi2
      exact not_lt.mpr (h i hi2)
    simp only [convective_profile]
    rw [hnone]
  · intro j hj hjx
    rcases hsome : lastExceed? (lapseCandidate p phlev surfaceT lp) T_rad
      with _ | c
    · exact absurd hjx
        (lastExceed?_eq_none_forall hsome j (hcl ▸ hj) hj)
    · obtain ⟨hc1, hc2, hc3, hc4⟩ := lastExceed?_eq_some hsome
      refine ⟨c, hc2, hc3, ?_, ?_, ?_, ?_⟩
      · intro i hi1 hi2
        exact not_lt.mp (hc4 i hi1 (hcl ▸ hi2) hi2)
      · simp only [convective_profile]
        rw [hsome]
        simp only [List.length_append, List.length_take, List.length_drop]
        omega
      · intro i hi
        simp only [convective_profile]
        rw [hsome]
        rw [List.getD_eq_getElem?_getD, List.getD_eq_getElem?_getD,
          List.getElem?_append]
        rw [if_pos (by simp only [List.length_take]; omega)]
        rw [List.getElem?_take, if_pos (by omega)]
      · intro i hi1 hi2
        simp only [convective_profile]
        rw [hsome]
        rw [List.getD_eq_getElem?_getD, List.getD_eq_getElem?_getD,
          List.getElem?_append]
        rw [if_neg (by simp only [List.length_take]; omega)]
        rw [List.getElem?_drop]
        congr 2
        simp only [List.length_take]
        omega

/-! ## Claim C2: `stabilize` -/

/-- C2 (code bug): every call of `HardAdjustment.stabilize` raises a
`NameError` (line 215 references the unbound name `T_old`), so the method
never completes normally and never writes the adjusted temperatures. -/
theorem stabilize_always_raises (atmosphere atmosphere_old : Atm)
    (hum : Atm → List ℚ) (lapse : List ℚ) (surface : Surf) (timestep : ℚ) :
    stabilize atmosphere atmosphere_old hum lapse surface timestep
      = Except.error "NameError: name T_old is not defined" := rfl

/-! ## Claim C9: the no-convection sentinel -/

/-- C9: when the convective heating rate exceeds the threshold at no
level, `update_convective_top` completes normally and sets all three
convective-top diagnostics to the undefined sentinel. -/
theorem update_convective_top_sentinel (T_rad T_con p : List ℚ)
    (timestep lim : ℚ)
    (h : ∀ x ∈ convectiveHeating T_rad T_con timestep, x ≤ lim) :
    update_convective_top T_rad T_con p timestep lim
      = Except.ok (none, none, none) := by
  unfold update_convective_top
  rw [if_neg]
  simp only [List.any_eq_true, decide_eq_true_eq, not_exists, not_and, not_lt]
  exact h

/-- Witness for C9 at a concrete input: a two-level column whose adjusted
profile equals the radiative one has zero heating everywhere, and the
diagnostics are the sentinel triple. -/
theorem update_convective_top_sentinel_witness :
    (∀ x ∈ convectiveHeating [280, 290] [280, 290] 1, x ≤ 1/5)
    ∧ update_convective_top [280, 290] [280, 290] [90000, 50000] 1 (1/5)
      = Except.ok (none, none, none) :=
  ⟨by norm_num [convectiveHeating],
   update_convective_top_sentinel [280, 290] [280, 290] [90000, 50000] 1 (1/5)
     (by norm_num [convectiveHeating])⟩

/-! ## Claim C10: the unguarded interpolation in the diagnostics -/

/-- C10: a heating array that exceeds the threshold somewhere but never
falls back below it at or above the first exceedance (here the first
exceedance is at index 0, so `contop_index - 1 = -1` wraps to the last
element) makes `update_convective_top` fail with the interpolation range
error instead of producing the sentinel. -/
theorem update_convective_top_range_error :
    (∃ x ∈ convectiveHeating [0, 0] [1, 2] 1, (1/5 : ℚ) < x)
    ∧ (∀ x ∈ convectiveHeating [0, 0] [1, 2] 1, (1/5 : ℚ) ≤ x)
    ∧ update_convective_top [0, 0] [1, 2] [90000, 50000] 1 (1/5)
      = Except.error "A value in x_new is below the interpolation range." := by
  refine ⟨⟨1, by norm_num [convectiveHeating], by norm_num⟩, ?_, ?_⟩
  · norm_num [convectiveHeating]
  · norm_num [update_convective_top, convectiveHeating, interp_variable,
      npArgmaxBool, pyGet, interp1dBounded, interpSegs, sortPts, insortPt,
      lineThrough]
    rfl

/-! ## Lemmas about the regula-falsi loop -/

theorem convStep_surfaceT (eval : ℚ → List ℚ × ℚ) (st : RFState) :
    (convStep eval st).surfaceT = proposedT st := by
  simp only [convStep]
  split <;> rfl

theorem convStep_T_con (eval : ℚ → List ℚ × ℚ) (st : RFState) :
    (convStep eval st).T_con = (eval (proposedT st)).1 := by
  simp only [convStep]
  split <;> rfl

theorem convStep_of_pos (eval : ℚ → List ℚ × ℚ) (st : RFState)
    (h : 0 < (eval (proposedT st)).2) :
    (convStep eval st).diff_pos = (eval (proposedT st)).2
    ∧ (convStep eval st).diff_neg = st.diff_neg
    ∧ (convStep eval st).surfaceTpos = proposedT st
    ∧ (convStep eval st).surfaceTneg = st.surfaceTneg := by
  simp only [convStep]
  rw [if_pos h]
  exact ⟨rfl, rfl, rfl, rfl⟩

theorem convStep_of_nonpos (eval : ℚ → List ℚ × ℚ) (st : RFState)
    (h : ¬ 0 < (eval (proposedT st)).2) :
    (convStep eval st).diff_neg = (eval (proposedT st)).2
    ∧ (convStep eval st).diff_pos = st.diff_pos
    ∧ (convStep eval st).surfaceTneg = proposedT st
    ∧ (convStep eval st).surfaceTpos = st.surfaceTpos := by
  simp only [convStep]
  rw [if_neg h]
  exact ⟨rfl, rfl, rfl, rfl⟩

theorem adjustLoop_error_iff (eval : ℚ → List ℚ × ℚ) (near_zero : ℚ)
    (fuel : ℕ) (st : RFState) :
    adjustLoop eval near_zero fuel st = Except.error noProfileMsg ↔
      ∀ k, k ≤ fuel → loopCond near_zero ((convStep eval)^[k] st) := by
  induction fuel generalizing st with
  | zero =>
    rw [adjustLoop]
    by_cases h : loopCond near_zero st
    · rw [if_pos h]
      constructor
      · intro _ k hk
        obtain rfl : k = 0 := Nat.le_zero.mp hk
        simpa using h
      · intro _; rfl
    · rw [if_neg h]
      constructor
      · intro hcontra; simp at hcontra
      · intro hall; exact absurd (by simpa using hall 0 le_rfl) h
  | succ f ih =>
    rw [adjustLoop]
    by_cases h : loopCond near_zero st
    · rw [if_pos h]
      show adjustLoop eval near_zero f (convStep eval st) = _ ↔ _
      rw [ih (convStep eval st)]
      constructor
      · intro hall k hk
        match k with
        | 0 => simpa using h
        | k + 1 =>
          rw [Function.iterate_succ_apply]
          exact hall k (by omega)
      · intro hall k hk
        have h2 := hall (k + 1) (by omega)
        rwa [Function.iterate_succ_apply] at h2
    · rw [if_neg h]
      constructor
      · intro hcontra; simp at hcontra
      · intro hall; exact absurd (by simpa using hall 0 (by omega)) h

theorem adjustLoop_ok_iff (eval : ℚ → List ℚ × ℚ) (near_zero : ℚ)
    (fuel : ℕ) (st : RFState) (r : List ℚ × ℚ) :
    adjustLoop eval near_zero fuel st = Except.ok r ↔
      ∃ k, k ≤ fuel ∧ ¬ loopCond near_zero ((convStep eval)^[k] st) ∧
        (∀ j, j < k → loopCond near_zero ((convStep eval)^[j] st)) ∧
        r = (((convStep eval)^[k] st).T_con,
             ((convStep eval)^[k] st).surfaceT) := by
  induction fuel generalizing st with
  | zero =>
    rw [adjustLoop]
    by_cases h : loopCond near_zero st
    · rw [if_pos h]
      constructor
      · intro hcontra; simp at hcontra
      · rintro ⟨k, hk, hnc, -, -⟩
        obtain rfl : k = 0 := Nat.le_zero.mp hk
        exact absurd (by simpa using h) hnc
    · rw [if_neg h]
      constructor
      · intro hok
        refine ⟨0, le_rfl, by simpa using h, by omega, ?_⟩
        simpa using (Except.ok.injEq _ _ ▸ hok).symm
      · rintro ⟨k, hk, hnc, hall, hr⟩
        obtain rfl : k = 0 := Nat.le_zero.mp hk
        simp only [Function.iterate_zero_apply] at hr
        rw [hr]
  | succ f ih =>
    rw [adjustLoop]
    by_cases h : loopCond near_zero st
    · rw [if_pos h]
      show adjustLoop eval near_zero f (convStep eval st) = _ ↔ _
      rw [ih (convStep eval st)]
      constructor
      · rintro ⟨k, hk, hnc, hall, hr⟩
        refine ⟨k + 1, by omega, ?_, ?_, ?_⟩
        · rwa [Function.iterate_succ_apply]
        · intro j hj
          match j with
          | 0 => simpa using h
          | j + 1 =>
            rw [Function.iterate_succ_apply]
            exact hall j (by omega)
        · rwa [Function.iterate_succ_apply]
      · rintro ⟨k, hk, hnc, hall, hr⟩
        match k with
        | 0 => exact absurd (by simpa using h) hnc
        | k + 1 =>
          rw [Function.iterate_succ_apply] at hnc hr
          refine ⟨k, by omega, hnc, ?_, hr⟩
          intro j hj
          have h2 := hall (j + 1) (by omega)
          rwa [Function.iterate_succ_apply] at h2
    · rw [if_neg h]
      constructor
      · intro hok
        refine ⟨0, by omega, by simpa using h, by omega, ?_⟩
        simpa using (Except.ok.injEq _ _ ▸ hok).symm
      · rintro ⟨k, hk, hnc, hall, hr⟩
        match k with
        | 0 =>
          simp only [Function.iterate_zero_apply] at hr
          rw [hr]
        | k + 1 => exact absurd (hall 0 (by omega)) (by simpa using h)

theorem adjustLoop_ok_energy (eval : ℚ → List ℚ × ℚ) (near_zero : ℚ)
    (fuel : ℕ) (st : RFState) (hpos : near_zero ≤ st.diff_pos)
    (hneg : near_zero ≤ |st.diff_neg|) (tc : List ℚ) (s : ℚ)
    (h : adjustLoop eval near_zero fuel st = Except.ok (tc, s)) :
    tc = (eval s).1 ∧ |(eval s).2| < near_zero := by
  induction fuel generalizing st with
  | zero =>
    rw [adjustLoop, if_pos ⟨hpos, hneg⟩] at h
    simp at h
  | succ f ih =>
    rw [adjustLoop, if_pos ⟨hpos, hneg⟩] at h
    replace h : adjustLoop eval near_zero f (convStep eval st)
        = Except.ok (tc, s) := h
    by_cases hc : loopCond near_zero (convStep eval st)
    · exact ih (convStep eval st) hc.1 hc.2 h
    · rw [adjustLoop, if_neg hc] at h
      obtain ⟨htc, hs⟩ : (convStep eval st).T_con = tc
          ∧ (convStep eval st).surfaceT = s := by
        simpa using h
      have hsp : s = proposedT st := by rw [← hs, convStep_surfaceT]
      subst hsp
      refine ⟨by rw [← htc, convStep_T_con], ?_⟩
      by_cases hr : 0 < (eval (proposedT st)).2
      · obtain ⟨e1, e2, -, -⟩ := convStep_of_pos eval st hr
        rw [loopCond, not_and_or, e1, e2] at hc
        rcases hc with hc | hc
        · rw [abs_of_pos hr]
          exact not_le.mp hc
        · exact absurd hneg hc
      · obtain ⟨e1, e2, -, -⟩ := convStep_of_nonpos eval st hr
        rw [loopCond, not_and_or, e1, e2] at hc
        rcases hc with hc | hc
        · exact absurd hpos hc
        · exact not_le.mp hc

/-! ## The bracketing invariant -/

/-- The sign/ordering invariant the specification asserts for the loop
state. -/
def RFInv (st : RFState) : Prop :=
  st.diff_neg ≤ 0 ∧ 0 < st.diff_pos ∧ st.surfaceTneg ≤ st.surfaceTpos

theorem proposedT_bracket (st : RFState) (h : RFInv st) :
    st.surfaceTneg ≤ proposedT st ∧ proposedT st ≤ st.surfaceTpos := by
  obtain ⟨h1, h2, h3⟩ := h
  have hnum : (0 : ℚ) ≤ -st.diff_neg := by linarith
  have hden : (0 : ℚ) < -st.diff_neg + st.diff_pos := by linarith
  have e : proposedT st = st.surfaceTneg
      + (st.surfaceTpos - st.surfaceTneg) * (-st.diff_neg)
        / (-st.diff_neg + st.diff_pos) := rfl
  have hq0 : (0 : ℚ) ≤ (st.surfaceTpos - st.surfaceTneg) * (-st.diff_neg)
      / (-st.diff_neg + st.diff_pos) :=
    div_nonneg (mul_nonneg (by linarith) hnum) hden.le
  have hq1 : (st.surfaceTpos - st.surfaceTneg) * (-st.diff_neg)
      / (-st.diff_neg + st.diff_pos) ≤ st.surfaceTpos - st.surfaceTneg := by
    rw [div_le_iff₀ hden]
    have hmul : (st.surfaceTpos - st.surfaceTneg) * (-st.diff_neg)
        ≤ (st.surfaceTpos - st.surfaceTneg) * (-st.diff_neg + st.diff_pos) :=
      mul_le_mul_of_nonneg_left (by linarith) (by linarith)
    exact hmul
  constructor
  · rw [e]; linarith
  · rw [e]; linarith

theorem RFInv_step (eval : ℚ → List ℚ × ℚ) (st : RFState) (h : RFInv st) :
    RFInv (convStep eval st) := by
  obtain ⟨hb1, hb2⟩ := proposedT_bracket st h
  obtain ⟨h1, h2, h3⟩ := h
  by_cases hr : 0 < (eval (proposedT st)).2
  · obtain ⟨e1, e2, e3, e4⟩ := convStep_of_pos eval st hr
    exact ⟨by rw [e2]; exact h1, by rw [e1]; exact hr,
      by rw [e3, e4]; exact hb1⟩
  · obtain ⟨e1, e2, e3, e4⟩ := convStep_of_nonpos eval st hr
    exact ⟨by rw [e1]; exact not_lt.mp hr, by rw [e2]; exact h2,
      by rw [e3, e4]; exact hb2⟩

/-- C6 (amended): provided the coldest radiative temperature does not
exceed the current surface temperature and the surface heat capacity is
positive, every iteration of the root-finding loop of
`convective_adjustment` keeps `diff_neg ≤ 0 ≤ diff_pos` and proposes a
surface temperature between the bounds. -/
theorem rf_loop_invariant (hum height : Atm → List ℚ) (dens : ℚ → ℚ → ℚ)
    (mix : ℚ → ℚ) (atmosphere atmosphere_old : Atm) (surface : Surf)
    (lapse : List ℚ)
    (hmin : minList atmosphere.T ≤ surface.temperature)
    (hcs : 0 < surface.heat_capacity)
    (hdpos : surface.heat_capacity / 10 ^ 13
      ≤ (caInit hum height dens mix atmosphere atmosphere_old surface
          lapse).diff_pos) :
    ∀ k,
      ((convStep (caEval hum height dens mix atmosphere atmosphere_old
          surface lapse))^[k]
        (caInit hum height dens mix atmosphere atmosphere_old surface
          lapse)).diff_neg ≤ 0
      ∧ 0 ≤ ((convStep (caEval hum height dens mix atmosphere atmosphere_old
          surface lapse))^[k]
        (caInit hum height dens mix atmosphere atmosphere_old surface
          lapse)).diff_pos
      ∧ ((convStep (caEval hum height dens mix atmosphere atmosphere_old
          surface lapse))^[k]
        (caInit hum height dens mix atmosphere atmosphere_old surface
          lapse)).surfaceTneg
        ≤ ((convStep (caEval hum height dens mix atmosphere atmosphere_old
          surface lapse))^[k]
        (caInit hum height dens mix atmosphere atmosphere_old surface
          lapse)).surfaceTpos
      ∧ ((convStep (caEval hum height dens mix atmosphere atmosphere_old
          surface lapse))^[k]
        (caInit hum height dens mix atmosphere atmosphere_old surface
          lapse)).surfaceTneg
        ≤ proposedT ((convStep (caEval hum height dens mix atmosphere
          atmosphere_old surface lapse))^[k]
        (caInit hum height dens mix atmosphere atmosphere_old surface
          lapse))
      ∧ proposedT ((convStep (caEval hum height dens mix atmosphere
          atmosphere_old surface lapse))^[k]
        (caInit hum height dens mix atmosphere atmosphere_old surface
          lapse))
        ≤ ((convStep (caEval hum height dens mix atmosphere atmosphere_old
          surface lapse))^[k]
        (caInit hum height dens mix atmosphere atmosphere_old surface
          lapse)).surfaceTpos := by
  intro k
  have hnz : (0 : ℚ) < surface.heat_capacity / 10 ^ 13 :=
    div_pos hcs (by norm_num)
  have hInv0 : RFInv (caInit hum height dens mix atmosphere atmosphere_old
      surface lapse) := by
    refine ⟨?_, lt_of_lt_of_le hnz hdpos, hmin⟩
    have hsub : minList atmosphere.T - surface.temperature ≤ 0 :=
      sub_nonpos.mpr hmin
    exact mul_nonpos_of_nonneg_of_nonpos hcs.le hsub
  have hInv : ∀ m, RFInv ((convStep (caEval hum height dens mix atmosphere
      atmosphere_old surface lapse))^[m]
      (caInit hum height dens mix atmosphere atmosphere_old surface
        lapse)) := by
    intro m
    induction m with
    | zero => simpa using hInv0
    | succ m ihm =>
      rw [Function.iterate_succ_apply']
      exact RFInv_step _ _ ihm
  obtain ⟨h1, h2, h3⟩ := hInv k
  obtain ⟨hb1, hb2⟩ := proposedT_bracket _ (hInv k)
  exact ⟨h1, h2.le, h3, hb1, hb2⟩

/-- When the surface is not fixed-temperature and neither early exit
fires, `convective_adjustment` is exactly the regula-falsi loop started
from `caInit` with a fuel of 99 remaining bodies. -/
theorem convective_adjustment_loop_eq (hum height : Atm → List ℚ)
    (dens : ℚ → ℚ → ℚ) (mix : ℚ → ℚ) (atmosphere atmosphere_old : Atm)
    (lapse : List ℚ) (surface : Surf)
    (hfix : surface.fixedTemperature = false)
    (h1 : surface.heat_capacity / 10 ^ 13
      ≤ (caEval hum height dens mix atmosphere atmosphere_old surface lapse
          surface.temperature).2)
    (h2 : surface.heat_capacity / 10 ^ 13
      ≤ |surface.heat_capacity
          * (minList atmosphere.T - surface.temperature)|) :
    convective_adjustment hum height dens mix atmosphere atmosphere_old
        lapse surface
      = adjustLoop (caEval hum height dens mix atmosphere atmosphere_old
          surface lapse) (surface.heat_capacity / 10 ^ 13) 99
          (caInit hum height dens mix atmosphere atmosphere_old surface
            lapse) := by
  rw [convective_adjustment]
  rw [if_neg (by rw [hfix]; exact Bool.false_ne_true)]
  show (if (caEval hum height dens mix atmosphere atmosphere_old surface
      lapse surface.temperature).2 < surface.heat_capacity / 10 ^ 13
    then _ else _) = _
  rw [if_neg (not_lt.mpr h1)]
  show (if |surface.heat_capacity
      * (minList atmosphere.T - surface.temperature)|
        < surface.heat_capacity / 10 ^ 13 then _ else _) = _
  rw [if_neg (not_lt.mpr h2)]

/-! ## Claim C1 (amended): energy conservation of loop returns -/

/-- C1 (amended): whenever `convective_adjustment` proceeds past the
fixed-surface bypass and past both early exits (so the regula-falsi loop
runs) and returns a pair `(tc, s)`, then `tc` is exactly the candidate
profile built for `s` and the total (dry + latent) energy difference of
that candidate satisfies `|diff| < near_zero` with
`near_zero = heat_capacity / 1e13`. -/
theorem convective_adjustment_loop_energy (hum height : Atm → List ℚ)
    (dens : ℚ → ℚ → ℚ) (mix : ℚ → ℚ) (atmosphere atmosphere_old : Atm)
    (lapse : List ℚ) (surface : Surf)
    (hfix : surface.fixedTemperature = false)
    (h1 : surface.heat_capacity / 10 ^ 13
      ≤ (caEval hum height dens mix atmosphere atmosphere_old surface lapse
          surface.temperature).2)
    (h2 : surface.heat_capacity / 10 ^ 13
      ≤ |surface.heat_capacity
          * (minList atmosphere.T - surface.temperature)|)
    (tc : List ℚ) (s : ℚ)
    (hok : convective_adjustment hum height dens mix atmosphere
        atmosphere_old lapse surface = Except.ok (tc, s)) :
    tc = (caEval hum height dens mix atmosphere atmosphere_old surface
        lapse s).1
    ∧ |(caEval hum height dens mix atmosphere atmosphere_old surface
        lapse s).2| < surface.heat_capacity / 10 ^ 13 := by
  rw [convective_adjustment_loop_eq hum height dens mix atmosphere
    atmosphere_old lapse surface hfix h1 h2] at hok
  refine adjustLoop_ok_energy _ _ 99 _ ?_ ?_ tc s hok
  · exact h1
  · exact h2

/-! ## Claim C4 (amended): the iteration cap -/

/-- C4 (amended): the root-finding loop of `convective_adjustment` raises
the fatal `ValueError` exactly when the loop guard still holds at every
one of the first 100 guard checks (states `0` through `99`), i.e. exactly
when neither convergence condition is reached within 99 completed
iterations.  In particular a run whose 100th iteration produces a
converged candidate still raises. -/
theorem conv_loop_error_iff (hum height : Atm → List ℚ)
    (dens : ℚ → ℚ → ℚ) (mix : ℚ → ℚ) (atmosphere atmosphere_old : Atm)
    (surface : Surf) (lapse : List ℚ) :
    adjustLoop (caEval hum height dens mix atmosphere atmosphere_old
        surface lapse) (surface.heat_capacity / 10 ^ 13) 99
        (caInit hum height dens mix atmosphere atmosphere_old surface lapse)
      = Except.error noProfileMsg
    ↔ ∀ k, k ≤ 99 →
        loopCond (surface.heat_capacity / 10 ^ 13)
          ((convStep (caEval hum height dens mix atmosphere atmosphere_old
            surface lapse))^[k]
            (caInit hum height dens mix atmosphere atmosphere_old surface
              lapse)) :=
  adjustLoop_error_iff _ _ 99 _

/-! ## Claim C5 (amended): the termination condition -/

/-- C5 (amended): the root-finding loop of `convective_adjustment`
continues only while `diff_pos ≥ near_zero` AND `|diff_neg| ≥ near_zero`
both hold, and returns the current candidate as soon as EITHER condition
drops below `near_zero` (the guard is the conjunction of the two
`≥ near_zero` tests, so its failure — not the simultaneous convergence of
both differences — terminates the loop). -/
theorem conv_loop_ok_iff (hum height : Atm → List ℚ)
    (dens : ℚ → ℚ → ℚ) (mix : ℚ → ℚ) (atmosphere atmosphere_old : Atm)
    (surface : Surf) (lapse : List ℚ) (r : List ℚ × ℚ) :
    adjustLoop (caEval hum height dens mix atmosphere atmosphere_old
        surface lapse) (surface.heat_capacity / 10 ^ 13) 99
        (caInit hum height dens mix atmosphere atmosphere_old surface lapse)
      = Except.ok r
    ↔ ∃ k, k ≤ 99 ∧
        ¬ loopCond (surface.heat_capacity / 10 ^ 13)
          ((convStep (caEval hum height dens mix atmosphere atmosphere_old
            surface lapse))^[k]
            (caInit hum height dens mix atmosphere atmosphere_old surface
              lapse)) ∧
        (∀ j, j < k →
          loopCond (surface.heat_capacity / 10 ^ 13)
            ((convStep (caEval hum height dens mix atmosphere atmosphere_old
              surface lapse))^[j]
              (caInit hum height dens mix atmosphere atmosphere_old surface
                lapse))) ∧
        r = (((convStep (caEval hum height dens mix atmosphere
                atmosphere_old surface lapse))^[k]
              (caInit hum height dens mix atmosphere atmosphere_old surface
                lapse)).T_con,
             ((convStep (caEval hum height dens mix atmosphere
                atmosphere_old surface lapse))^[k]
              (caInit hum height dens mix atmosphere atmosphere_old surface
                lapse)).surfaceT) :=
  adjustLoop_ok_iff _ _ 99 _ r

/-! ## Claim C8: the reference state of the latent term -/

theorem latent_heat_difference_cons (x y : ℚ) (xs ys : List ℚ) :
    latent_heat_difference (x :: xs) (y :: ys)
      = (x - y) * Lv + latent_heat_difference xs ys := by
  simp [latent_heat_difference]

theorem latent_heat_difference_chain (a b c : List ℚ)
    (hab : a.length = b.length) (hbc : b.length = c.length) :
    latent_heat_difference a c
      = latent_heat_difference a b + latent_heat_difference b c := by
  induction a generalizing b c with
  | nil =>
    obtain rfl : b = [] := List.length_eq_zero.mp hab.symm
    obtain rfl : c = [] := List.length_eq_zero.mp hbc.symm
    simp [latent_heat_difference]
  | cons x xs ih =>
    cases b with
    | nil => simp at hab
    | cons y ys =>
      cases c with
      | nil => simp at hbc
      | cons z zs =>
        rw [latent_heat_difference_cons, latent_heat_difference_cons,
          latent_heat_difference_cons,
          ih ys zs (by simpa using hab) (by simpa using hbc)]
        ring

/-- C8 (amended): the latent term of `create_and_check_profile` references
the previous-timestep atmosphere, not the current radiatively updated
one: the energy difference it computes equals the value the claim
describes (reference water content from the current atmosphere) plus the
latent-heat difference between the current and previous atmospheres'
water contents. -/
theorem cacp_latent_reference (hum height : Atm → List ℚ)
    (dens : ℚ → ℚ → ℚ) (mix : ℚ → ℚ) (atmosphere atmosphere_old : Atm)
    (surface : Surf) (surfaceT : ℚ) (lp : List ℚ)
    (hl1 : (water_vapour_profile dens mix
        (update_temporary_atmosphere hum height atmosphere
          (convective_profile atmosphere.T atmosphere.plev atmosphere.phlev
            surfaceT lp))).length
      = (water_vapour_profile dens mix atmosphere).length)
    (hl2 : (water_vapour_profile dens mix atmosphere).length
      = (water_vapour_profile dens mix atmosphere_old).length) :
    (create_and_check_profile hum height dens mix atmosphere atmosphere_old
        surface surfaceT lp).2
      = (create_and_check_profile_claimC8 hum height dens mix atmosphere
          atmosphere_old surface surfaceT lp).2
        + latent_heat_difference (water_vapour_profile dens mix atmosphere)
            (water_vapour_profile dens mix atmosphere_old) := by
  simp only [create_and_check_profile, create_and_check_profile_claimC8,
    pairEnergyDiff]
  rw [latent_heat_difference_chain _ _ _ hl1 hl2]
  ring

/-! ## Claim C7: the relaxed-to-hard limit -/

theorem zipWith3_getD {α : Type} [LinearOrderedField α]
    (f : α → α → α → α) (l1 l2 l3 : List α) (i : ℕ) (d : α)
    (h1 : i < l1.length) (h2 : i < l2.length) (h3 : i < l3.length) :
    (zipWith3 f l1 l2 l3).getD i d
      = f (l1.getD i d) (l2.getD i d) (l3.getD i d) := by
  induction l1 generalizing l2 l3 i with
  | nil => simp at h1
  | cons x xs ih =>
    cases l2 with
    | nil => simp at h2
    | cons y ys =>
      cases l3 with
      | nil => simp at h3
      | cons z zs =>
        match i with
        | 0 => simp [zipWith3]
        | i + 1 =>
          simp only [zipWith3, List.getD_cons_succ]
          exact ih ys zs i (by simpa using h1) (by simpa using h2)
            (by simpa using h3)

theorem getD_map_of_lt {α : Type} [LinearOrderedField α] (f : α → α)
    (l : List α) (i : ℕ) (d : α) (h : i < l.length) :
    (l.map f).getD i d = f (l.getD i d) := by
  rw [List.getD_eq_getElem?_getD, List.getElem?_map,
    List.getElem?_eq_getElem h, List.getD_eq_getElem?_getD,
    List.getElem?_eq_getElem h]
  rfl

theorem lastExceed?_of_all {α : Type} [LinearOrderedField α]
    [DecidableRel ((· < ·) : α → α → Prop)] (a b : List α)
    (hlen : a.length = b.length) (hn : 0 < b.length)
    (hall : ∀ i, i < b.length → b.getD i 0 < a.getD i 0) :
    lastExceed? a b = some (b.length - 1) := by
  induction a generalizing b with
  | nil => rw [← hlen] at hn; simp at hn
  | cons x xs ih =>
    cases b with
    | nil => simp at hn
    | cons y ys =>
      rw [lastExceed?]
      cases ys with
      | nil =>
        obtain rfl : xs = [] := by
          simpa using hlen
        have h0 := hall 0 (by simp)
        simp only [List.getD_cons_zero] at h0
        show (match lastExceed? ([] : List α) [] with
          | some i => some (i + 1)
          | none => if y < x then some 0 else none) = _
        simp [lastExceed?, if_pos h0]
      | cons z zs =>
        have hxs : lastExceed? xs (z :: zs) = some ((z :: zs).length - 1) := by
          apply ih
          · simpa using hlen
          · simp
          · intro i hi
            simpa using hall (i + 1) (by simpa using hi)
        rw [hxs]
        show some ((z :: zs).length - 1 + 1) = some ((y :: z :: zs).length - 1)
        congr 1

theorem convective_profile_of_all_exceed {α : Type} [LinearOrderedField α]
    [DecidableRel ((· < ·) : α → α → Prop)] (T_rad p phlev lp : List α)
    (surfaceT : α)
    (hlen : (lapseCandidate p phlev surfaceT lp).length = T_rad.length)
    (hn : 0 < T_rad.length)
    (hall : ∀ i, i < T_rad.length →
      T_rad.getD i 0 < (lapseCandidate p phlev surfaceT lp).getD i 0) :
    convective_profile T_rad p phlev surfaceT lp
      = lapseCandidate p phlev surfaceT lp := by
  simp only [convective_profile]
  rw [lastExceed?_of_all _ _ hlen hn hall]
  show List.take (T_rad.length - 1 + 1) (lapseCandidate p phlev surfaceT lp)
      ++ List.drop (T_rad.length - 1 + 1) T_rad
    = lapseCandidate p phlev surfaceT lp
  have hT : T_rad.length - 1 + 1 = T_rad.length := by omega
  rw [hT]
  rw [List.drop_length, ← hlen, List.take_length, List.append_nil]

theorem tendsto_exp_neg_div_atTop (τ : ℝ) (hτ : 0 < τ) :
    Tendsto (fun ts : ℝ => Real.exp (-ts / τ)) atTop (nhds 0) := by
  have h1 : Tendsto (fun ts : ℝ => ts / τ) atTop atTop :=
    tendsto_id.atTop_div_const hτ
  have h2 : Tendsto (fun ts : ℝ => -(ts / τ)) atTop atBot :=
    tendsto_neg_atTop_atBot.comp h1
  have h3 := Real.tendsto_exp_atBot.comp h2
  exact h3.congr (fun ts => by simp [Function.comp, neg_div])

theorem relaxed_component_tendsto (tr c τ : ℝ) (hτ : 0 < τ) :
    Tendsto (fun ts : ℝ =>
        tr * (1 - (1 - Real.exp (-ts / τ)))
          + (1 - Real.exp (-ts / τ)) * c)
      atTop (nhds c) := by
  have he := tendsto_exp_neg_div_atTop τ hτ
  have h := (he.const_mul tr).add
    (((tendsto_const_nhds (x := (1 : ℝ))).sub he).mul
      (tendsto_const_nhds (x := c)))
  have h2 : Tendsto (fun ts : ℝ =>
      tr * Real.exp (-ts / τ) + (1 - Real.exp (-ts / τ)) * c)
      atTop (nhds c) := by
    simpa using h
  exact h2.congr (fun ts => by ring)

/-- C7 (amended): for positive convective timescales, as the timestep
grows without bound every level of the relaxed profile converges to the
unclipped lapse-rate candidate `surfaceT - cumsum(dp * lp)` — for every
radiative profile, pressure grid, surface temperature and lapse rate —
and whenever the candidate exceeds the radiative profile at every level
the hard variant's profile equals that candidate, so the relaxed profile
then converges to the hard variant's output (above the hard variant's
convective top the two limits generally differ). -/
theorem relaxed_tendsto_hard (T_rad p phlev lp : List ℝ) (surfaceT : ℝ)
    (tau : List ℝ) (hτ : ∀ t ∈ tau, 0 < t)
    (i : ℕ) (hi : i < T_rad.length) (hitau : i < tau.length)
    (hic : i < (lapseCandidate p phlev surfaceT lp).length) :
    Tendsto (fun ts =>
        (relaxed_convective_profile (some tau) T_rad p phlev surfaceT lp
          ts).getD i 0)
      atTop
      (nhds ((lapseCandidate p phlev surfaceT lp).getD i 0))
    ∧ (((lapseCandidate p phlev surfaceT lp).length = T_rad.length
        ∧ 0 < T_rad.length
        ∧ ∀ j, j < T_rad.length →
            T_rad.getD j 0
              < (lapseCandidate p phlev surfaceT lp).getD j 0) →
        convective_profile T_rad p phlev surfaceT lp
          = lapseCandidate p phlev surfaceT lp) := by
  constructor
  · have htau0 : 0 < tau.getD i 0 := by
      apply hτ
      rw [List.getD_eq_getElem?_getD, List.getElem?_eq_getElem hitau,
        Option.getD_some]
      exact List.getElem_mem hitau
    have hpt : ∀ ts : ℝ,
        (relaxed_convective_profile (some tau) T_rad p phlev surfaceT lp
          ts).getD i 0
        = T_rad.getD i 0 * (1 - (1 - Real.exp (-ts / tau.getD i 0)))
          + (1 - Real.exp (-ts / tau.getD i 0))
            * (lapseCandidate p phlev surfaceT lp).getD i 0 := by
      intro ts
      simp only [relaxed_convective_profile, get_convective_tau]
      rw [zipWith3_getD _ _ _ _ i 0 hi (by simpa using hitau) hic]
      rw [getD_map_of_lt _ _ _ _ hitau]
    exact ((relaxed_component_tendsto (T_rad.getD i 0)
      ((lapseCandidate p phlev surfaceT lp).getD i 0) (tau.getD i 0)
      htau0).congr (fun ts => (hpt ts).symm))
  · rintro ⟨hlen, hn, hall⟩
    exact convective_profile_of_all_exceed T_rad p phlev lp surfaceT hlen
      hn hall

/-- C7 (counterexample): with radiative profile `[300]`, surface
temperature `280` and a lapse rate whose candidate `[270]` exceeds the
radiative profile nowhere, the hard variant returns the radiative profile
`[300]`, while the relaxed profile tends to `270`: it does NOT converge
to the hard variant's output as `timestep/tau` grows without bound. -/
theorem relaxed_limit_not_hard_cex :
    ¬ Tendsto (fun ts =>
        (relaxed_convective_profile (some [1]) [300] [90000]
          [100000, 50000] 280 [-1/1000] ts).getD 0 0)
      atTop
      (nhds ((convective_profile ([300] : List ℝ) [90000] [100000, 50000]
        280 [-1/1000]).getD 0 0)) := by
  have hc : lapseCandidate ([90000] : List ℝ) [100000, 50000] 280 [-1/1000]
      = [270] := by
    simp only [lapseCandidate, dpLapse, npDiff, cumsum, cumsumFrom,
      List.zipWith, List.map]
    norm_num
  have hhard : convective_profile ([300] : List ℝ) [90000] [100000, 50000]
      280 [-1/1000] = [300] := by
    simp only [convective_profile, hc]
    have hnone : lastExceed? ([270] : List ℝ) [300] = none := by
      apply lastExceed?_eq_none_of_forall
      intro i hi1 hi2
      match i with
      | 0 =>
        simp only [List.getD_cons_zero]
        norm_num
      | i + 1 => simp at hi1
    rw [hnone]
  rw [hhard]
  have hpt : ∀ ts : ℝ,
      (relaxed_convective_profile (some [1]) [300] [90000] [100000, 50000]
        280 [-1/1000] ts).getD 0 0
      = 270 + 30 * Real.exp (-ts) := by
    intro ts
    simp only [relaxed_convective_profile, get_convective_tau, hc,
      List.map, zipWith3, List.getD_cons_zero]
    rw [div_one]
    ring
  have h270 : Tendsto (fun ts : ℝ => 270 + 30 * Real.exp (-ts)) atTop
      (nhds 270) := by
    have he : Tendsto (fun ts : ℝ => Real.exp (-ts)) atTop (nhds 0) := by
      have := tendsto_exp_neg_div_atTop 1 one_pos
      exact this.congr (fun ts => by rw [div_one])
    have h := (tendsto_const_nhds (x := (270 : ℝ))).add (he.const_mul 30)
    simpa using h
  intro h
  have h300 : Tendsto (fun ts : ℝ => 270 + 30 * Real.exp (-ts)) atTop
      (nhds (([300] : List ℝ).getD 0 0)) :=
    h.congr (fun ts => hpt ts)
  have hq := tendsto_nhds_unique h270 h300
  simp only [List.getD_cons_zero] at hq
  norm_num at hq

/-- C7 (witness): on a one-level column with candidate `[940/3]` the
hypotheses of `relaxed_tendsto_hard` hold, giving the convergence of the
relaxed profile to the candidate, and — since the candidate exceeds the
radiative profile `[300]` everywhere — the equality of the hard profile
with the candidate. -/
theorem relaxed_tendsto_hard_witness :
    (∀ t ∈ ([1] : List ℝ), 0 < t)
    ∧ 0 < ([300] : List ℝ).length
    ∧ 0 < ([1] : List ℝ).length
    ∧ 0 < (lapseCandidate ([90000] : List ℝ) [100000, 50000] 280
        [1/300]).length
    ∧ (Tendsto (fun ts =>
        (relaxed_convective_profile (some [1]) [300] [90000]
          [100000, 50000] 280 [1/300] ts).getD 0 0)
      atTop
      (nhds ((lapseCandidate ([90000] : List ℝ) [100000, 50000] 280
        [1/300]).getD 0 0))
    ∧ (((lapseCandidate ([90000] : List ℝ) [100000, 50000] 280
          [1/300]).length = ([300] : List ℝ).length
        ∧ 0 < ([300] : List ℝ).length
        ∧ ∀ j, j < ([300] : List ℝ).length →
            ([300] : List ℝ).getD j 0
              < (lapseCandidate ([90000] : List ℝ) [100000, 50000] 280
                  [1/300]).getD j 0) →
        convective_profile ([300] : List ℝ) [90000] [100000, 50000] 280
          [1/300]
          = lapseCandidate ([90000] : List ℝ) [100000, 50000] 280
              [1/300])) := by
  have hc : lapseCandidate ([90000] : List ℝ) [100000, 50000] 280 [1/300]
      = [940/3] := by
    simp only [lapseCandidate, dpLapse, npDiff, cumsum, cumsumFrom,
      List.zipWith, List.map]
    norm_num
  have h1 : ∀ t ∈ ([1] : List ℝ), 0 < t := by
    intro t ht
    simp only [List.mem_singleton] at ht
    rw [ht]; norm_num
  have h2 : (lapseCandidate ([90000] : List ℝ) [100000, 50000] 280
      [1/300]).length = ([300] : List ℝ).length := by rw [hc]; rfl
  have h4 : ∀ i, i < ([300] : List ℝ).length →
      ([300] : List ℝ).getD i 0
        < (lapseCandidate ([90000] : List ℝ) [100000, 50000] 280
            [1/300]).getD i 0 := by
    intro i hi
    match i with
    | 0 =>
      rw [hc]
      simp only [List.getD_cons_zero]
      norm_num
    | i + 1 => simp at hi
  exact ⟨h1, by simp, by simp, by rw [hc]; norm_num,
    relaxed_tendsto_hard [300] [90000] [100000, 50000] [1/300] 280 [1]
      h1 0 (by simp) (by simp) (by rw [hc]; norm_num)⟩

/-! ## Concrete instances

Two-level columns (`plev = [90000, 50000]`,
`phlev = [100000, 70000, 40000]`) with trivial instantiations of the
external collaborators: unit density, identity mixing-ratio conversion, a
humidity model keeping the water content, and a height update keeping the
stored heights. -/

def exDens : ℚ → ℚ → ℚ := fun _ _ => 1

def exMix : ℚ → ℚ := fun x => x

def exHum : Atm → List ℚ := fun a => a.H2O

def exHeight : Atm → List ℚ := fun a => a.z

def exSurf : Surf := ⟨300, 10 ^ 13, false⟩

def exAtmOld : Atm :=
  ⟨[90000, 50000], [100000, 70000, 40000], [290, 280], [0, 0], [0, 100],
   [g, g]⟩

def exAtm1 : Atm :=
  ⟨[90000, 50000], [100000, 70000, 40000], [300, 310], [0, 0], [0, 100],
   [g, g]⟩

def exLapse1 : List ℚ :=
  [-earth_standard_gravity / 1000, -earth_standard_gravity / 1000]

/-- The pressure lapse rate of the C1 instance. -/
theorem exLapse1_lp : caLp exDens exAtm1 exLapse1 = [1/1000, 1/1000] := by
  norm_num [caLp, pressure_lapse_rate, exDens, exAtm1, exLapse1,
    interp1dExtrapolate, sortPts, insortPt, interpSegs, lineThrough,
    earth_standard_gravity, List.zip]

/-- The candidate evaluation of the C1 instance at the unchanged surface
temperature. -/
theorem exEval1_at300 :
    caEval exHum exHeight exDens exMix exAtm1 exAtmOld exSurf exLapse1 300
      = ([310, 350], 1500000) := by
  rw [caEval, exLapse1_lp]
  norm_num [create_and_check_profile, pairEnergyDiff, convective_profile,
    lapseCandidate, dpLapse, npDiff, cumsum, cumsumFrom, lastExceed?,
    update_temporary_atmosphere, water_vapour_profile, npGradient,
    npGradientAux, zipWith3, energy_difference_dry, latent_heat_difference,
    exAtm1, exAtmOld, exSurf, exHum, exHeight, exDens, exMix, g, Lv,
    List.zipWith]

/-- C1 (counterexample): on this instance `convective_adjustment` does
not take the step-1 early exit (the candidate at the unchanged surface
temperature gains `1.5e6 ≥ near_zero = 1` of energy), convective
adjustment occurs, and the function returns through the step-2 early
exit the pair `([310, 350], 300)` — whose dry-plus-latent energy
difference is `1.5e6`, NOT below `near_zero`. -/
theorem convective_adjustment_step2_cex :
    exSurf.fixedTemperature = false
    ∧ exSurf.heat_capacity / 10 ^ 13
        ≤ (caEval exHum exHeight exDens exMix exAtm1 exAtmOld exSurf
            exLapse1 exSurf.temperature).2
    ∧ convective_adjustment exHum exHeight exDens exMix exAtm1 exAtmOld
        exLapse1 exSurf = Except.ok ([310, 350], 300)
    ∧ pairEnergyDiff exHum exHeight exDens exMix exAtm1 exAtmOld exSurf
        [310, 350] 300 = 1500000
    ∧ ¬ |pairEnergyDiff exHum exHeight exDens exMix exAtm1 exAtmOld exSurf
          [310, 350] 300| < exSurf.heat_capacity / 10 ^ 13 := by
  have htemp : exSurf.temperature = 300 := rfl
  have hpair : pairEnergyDiff exHum exHeight exDens exMix exAtm1 exAtmOld
      exSurf [310, 350] 300 = 1500000 := by
    norm_num [pairEnergyDiff, update_temporary_atmosphere,
      water_vapour_profile, npGradient, npGradientAux, zipWith3,
      energy_difference_dry, latent_heat_difference, npDiff, exAtm1,
      exAtmOld, exSurf, exHum, exHeight, exDens, exMix, g, Lv,
      List.zipWith]
  refine ⟨rfl, ?_, ?_, hpair, ?_⟩
  · rw [htemp, exEval1_at300]
    norm_num [exSurf]
  · rw [convective_adjustment]
    rw [if_neg (by norm_num [exSurf])]
    show (if (caEval exHum exHeight exDens exMix exAtm1 exAtmOld exSurf
        exLapse1 exSurf.temperature).2
          < exSurf.heat_capacity / 10 ^ 13
      then Except.ok ((caEval exHum exHeight exDens exMix exAtm1 exAtmOld
          exSurf exLapse1 exSurf.temperature).1, exSurf.temperature)
      else _) = _
    rw [htemp, exEval1_at300]
    rw [if_neg (by norm_num [exSurf])]
    show (if |exSurf.heat_capacity * (minList exAtm1.T
          - exSurf.temperature)| < exSurf.heat_capacity / 10 ^ 13
      then Except.ok (([310, 350], (1500000 : ℚ)).1, minList exAtm1.T)
      else _) = _
    rw [if_pos]
    · norm_num [exAtm1, minList]
    · norm_num [exSurf, exAtm1, minList, htemp]
  · rw [hpair]
    norm_num [exSurf]

/-! The C5/C1/C6 loop instance: the surface sits `2e-13 K` above the
coldest radiative temperature, so `diff_neg = -2`; the candidate at the
unchanged surface temperature gains `2` units of energy, and the first
regula-falsi iterate already drops `diff_pos` below `near_zero = 1`
while `|diff_neg| = 2` stays above it. -/

def exAtm5 : Atm :=
  ⟨[90000, 50000], [100000, 70000, 40000], [300 - 1/5000000000000, 310],
   [0, 0], [0, 100], [g, g]⟩

def exLapse5 : List ℚ :=
  [-earth_standard_gravity * (1/150000000 - 1/50000000000000000),
   earth_standard_gravity * (1/800)]

theorem exLapse5_lp : caLp exDens exAtm5 exLapse5
    = [1/150000000 - 1/50000000000000000, -1/800] := by
  norm_num [caLp, pressure_lapse_rate, exDens, exAtm5, exLapse5,
    interp1dExtrapolate, sortPts, insortPt, interpSegs, lineThrough,
    earth_standard_gravity, List.zip]

theorem exEval5_at300 :
    caEval exHum exHeight exDens exMix exAtm5 exAtmOld exSurf exLapse5 300
      = ([300 + 1/15000 - 1/5000000000000, 310], 2) := by
  rw [caEval, exLapse5_lp]
  norm_num [create_and_check_profile, pairEnergyDiff, convective_profile,
    lapseCandidate, dpLapse, npDiff, cumsum, cumsumFrom, lastExceed?,
    update_temporary_atmosphere, water_vapour_profile, npGradient,
    npGradientAux, zipWith3, energy_difference_dry, latent_heat_difference,
    exAtm5, exAtmOld, exSurf, exHum, exHeight, exDens, exMix, g, Lv,
    List.zipWith]

theorem exEval5_atS1 :
    caEval exHum exHeight exDens exMix exAtm5 exAtmOld exSurf exLapse5
        (300 - 1/10000000000000)
      = ([300 + 1/15000 - 3/10000000000000, 310], 1 - 3/1000000000) := by
  rw [caEval, exLapse5_lp]
  norm_num [create_and_check_profile, pairEnergyDiff, convective_profile,
    lapseCandidate, dpLapse, npDiff, cumsum, cumsumFrom, lastExceed?,
    update_temporary_atmosphere, water_vapour_profile, npGradient,
    npGradientAux, zipWith3, energy_difference_dry, latent_heat_difference,
    exAtm5, exAtmOld, exSurf, exHum, exHeight, exDens, exMix, g, Lv,
    List.zipWith]

theorem exInit5 : caInit exHum exHeight exDens exMix exAtm5 exAtmOld exSurf
      exLapse5
    = ⟨300 - 1/5000000000000, 300, -2, 2,
       [300 + 1/15000 - 1/5000000000000, 310], 300⟩ := by
  have htemp : exSurf.temperature = 300 := rfl
  simp only [caInit, htemp, exEval5_at300]
  norm_num [exAtm5, exSurf, minList]

theorem exStep5 : convStep (caEval exHum exHeight exDens exMix exAtm5
      exAtmOld exSurf exLapse5)
      (caInit exHum exHeight exDens exMix exAtm5 exAtmOld exSurf exLapse5)
    = ⟨300 - 1/5000000000000, 300 - 1/10000000000000, -2, 1 - 3/1000000000,
       [300 + 1/15000 - 3/10000000000000, 310], 300 - 1/10000000000000⟩ := by
  rw [exInit5]
  have hprop : proposedT ⟨300 - 1/5000000000000, 300, -2, 2,
      [300 + 1/15000 - 1/5000000000000, 310], 300⟩
      = 300 - 1/10000000000000 := by
    norm_num [proposedT]
  simp only [convStep, hprop, exEval5_atS1]
  rw [if_pos (by norm_num)]

theorem exCA5_eq : convective_adjustment exHum exHeight exDens exMix exAtm5
      exAtmOld exLapse5 exSurf
    = Except.ok ([300 + 1/15000 - 3/10000000000000, 310],
        300 - 1/10000000000000) := by
  have htemp : exSurf.temperature = 300 := rfl
  rw [convective_adjustment_loop_eq exHum exHeight exDens exMix exAtm5
    exAtmOld exLapse5 exSurf rfl
    (by rw [htemp, exEval5_at300]; norm_num [exSurf])
    (by norm_num [exSurf, exAtm5, minList])]
  rw [adjustLoop]
  rw [if_pos (by rw [exInit5]; exact ⟨by norm_num [exSurf], by norm_num [exSurf]⟩)]
  show adjustLoop (caEval exHum exHeight exDens exMix exAtm5 exAtmOld
      exSurf exLapse5) (exSurf.heat_capacity / 10 ^ 13) 98
      (convStep (caEval exHum exHeight exDens exMix exAtm5 exAtmOld exSurf
        exLapse5)
        (caInit exHum exHeight exDens exMix exAtm5 exAtmOld exSurf
          exLapse5)) = _
  rw [exStep5, adjustLoop]
  rw [if_neg (by norm_num [exSurf, loopCond])]

/-- C5 (counterexample): on this instance the loop is entered
(`diff_pos = 2 ≥ 1` and `|diff_neg| = 2 ≥ 1`), and after one iteration it
terminates returning the current candidate although `|diff_neg| = 2` is
still `≥ near_zero = 1` — the loop does NOT wait for both convergence
conditions to hold simultaneously; `diff_pos < near_zero` alone ends
it. -/
theorem conv_loop_one_sided_exit_cex :
    convective_adjustment exHum exHeight exDens exMix exAtm5 exAtmOld
        exLapse5 exSurf
      = Except.ok ([300 + 1/15000 - 3/10000000000000, 310],
          300 - 1/10000000000000)
    ∧ loopCond (exSurf.heat_capacity / 10 ^ 13)
        (caInit exHum exHeight exDens exMix exAtm5 exAtmOld exSurf exLapse5)
    ∧ ¬ loopCond (exSurf.heat_capacity / 10 ^ 13)
        (convStep (caEval exHum exHeight exDens exMix exAtm5 exAtmOld
          exSurf exLapse5)
          (caInit exHum exHeight exDens exMix exAtm5 exAtmOld exSurf
            exLapse5))
    ∧ exSurf.heat_capacity / 10 ^ 13
        ≤ |(convStep (caEval exHum exHeight exDens exMix exAtm5 exAtmOld
            exSurf exLapse5)
            (caInit exHum exHeight exDens exMix exAtm5 exAtmOld exSurf
              exLapse5)).diff_neg| := by
  refine ⟨exCA5_eq, ?_, ?_, ?_⟩
  · rw [exInit5]
    exact ⟨by norm_num [exSurf], by norm_num [exSurf]⟩
  · rw [exStep5]
    norm_num [exSurf, loopCond]
  · rw [exStep5]
    norm_num [exSurf]

/-- Witness for C1 at the same instance: the adjustment passes both early
exits, the loop converges in one iteration, and the returned pair is the
candidate at the returned surface temperature with
`|diff| = 1 - 3e-9 < near_zero = 1`. -/
theorem convective_adjustment_loop_energy_witness :
    exSurf.fixedTemperature = false
    ∧ exSurf.heat_capacity / 10 ^ 13
        ≤ (caEval exHum exHeight exDens exMix exAtm5 exAtmOld exSurf
            exLapse5 exSurf.temperature).2
    ∧ exSurf.heat_capacity / 10 ^ 13
        ≤ |exSurf.heat_capacity * (minList exAtm5.T - exSurf.temperature)|
    ∧ ([300 + 1/15000 - 3/10000000000000, 310]
        = (caEval exHum exHeight exDens exMix exAtm5 exAtmOld exSurf
            exLapse5 (300 - 1/10000000000000)).1
      ∧ |(caEval exHum exHeight exDens exMix exAtm5 exAtmOld exSurf
            exLapse5 (300 - 1/10000000000000)).2|
          < exSurf.heat_capacity / 10 ^ 13) :=
  ⟨rfl,
   by rw [show exSurf.temperature = (300 : ℚ) from rfl, exEval5_at300]
      norm_num [exSurf],
   by norm_num [exSurf, exAtm5, minList],
   convective_adjustment_loop_energy exHum exHeight exDens exMix exAtm5
     exAtmOld exLapse5 exSurf rfl
     (by rw [show exSurf.temperature = (300 : ℚ) from rfl, exEval5_at300]
         norm_num [exSurf])
     (by norm_num [exSurf, exAtm5, minList])
     [300 + 1/15000 - 3/10000000000000, 310] (300 - 1/10000000000000)
     exCA5_eq⟩

/-- Witness for C6 at the same instance: the coldest radiative
temperature sits below the surface temperature and the heat capacity is
positive, so the amended bracketing invariant holds on every
iteration. -/
theorem rf_loop_invariant_witness :
    minList exAtm5.T ≤ exSurf.temperature
    ∧ 0 < exSurf.heat_capacity
    ∧ exSurf.heat_capacity / 10 ^ 13
        ≤ (caInit exHum exHeight exDens exMix exAtm5 exAtmOld exSurf
            exLapse5).diff_pos
    ∧ (∀ k,
      ((convStep (caEval exHum exHeight exDens exMix exAtm5 exAtmOld
          exSurf exLapse5))^[k]
        (caInit exHum exHeight exDens exMix exAtm5 exAtmOld exSurf
          exLapse5)).diff_neg ≤ 0
      ∧ 0 ≤ ((convStep (caEval exHum exHeight exDens exMix exAtm5 exAtmOld
          exSurf exLapse5))^[k]
        (caInit exHum exHeight exDens exMix exAtm5 exAtmOld exSurf
          exLapse5)).diff_pos
      ∧ ((convStep (caEval exHum exHeight exDens exMix exAtm5 exAtmOld
          exSurf exLapse5))^[k]
        (caInit exHum exHeight exDens exMix exAtm5 exAtmOld exSurf
          exLapse5)).surfaceTneg
        ≤ ((convStep (caEval exHum exHeight exDens exMix exAtm5 exAtmOld
          exSurf exLapse5))^[k]
        (caInit exHum exHeight exDens exMix exAtm5 exAtmOld exSurf
          exLapse5)).surfaceTpos
      ∧ ((convStep (caEval exHum exHeight exDens exMix exAtm5 exAtmOld
          exSurf exLapse5))^[k]
        (caInit exHum exHeight exDens exMix exAtm5 exAtmOld exSurf
          exLapse5)).surfaceTneg
        ≤ proposedT ((convStep (caEval exHum exHeight exDens exMix exAtm5
          exAtmOld exSurf exLapse5))^[k]
        (caInit exHum exHeight exDens exMix exAtm5 exAtmOld exSurf
          exLapse5))
      ∧ proposedT ((convStep (caEval exHum exHeight exDens exMix exAtm5
          exAtmOld exSurf exLapse5))^[k]
        (caInit exHum exHeight exDens exMix exAtm5 exAtmOld exSurf
          exLapse5))
        ≤ ((convStep (caEval exHum exHeight exDens exMix exAtm5 exAtmOld
          exSurf exLapse5))^[k]
        (caInit exHum exHeight exDens exMix exAtm5 exAtmOld exSurf
          exLapse5)).surfaceTpos) :=
  ⟨by norm_num [exSurf, exAtm5, minList],
   by norm_num [exSurf],
   by rw [exInit5]; norm_num [exSurf],
   rf_loop_invariant exHum exHeight exDens exMix exAtm5 exAtmOld exSurf
     exLapse5
     (by norm_num [exSurf, exAtm5, minList])
     (by norm_num [exSurf])
     (by rw [exInit5]; norm_num [exSurf])⟩

/-! The C6 instance: a surface colder than every radiative level, so the
lower bound `surfaceTneg = min(T_rad) = 300` sits ABOVE the upper bound
`surfaceTpos = 280` and `diff_neg = 2e14 > 0` already at loop entry. -/

def exSurfCold : Surf := ⟨280, 10 ^ 13, false⟩

def exLapse6 : List ℚ :=
  [-earth_standard_gravity * (21/10000), earth_standard_gravity * (3/2000)]

theorem exLapse6_lp : caLp exDens exAtm1 exLapse6 = [21/10000, -3/2000] := by
  norm_num [caLp, pressure_lapse_rate, exDens, exAtm1, exLapse6,
    interp1dExtrapolate, sortPts, insortPt, interpSegs, lineThrough,
    earth_standard_gravity, List.zip]

theorem exEval6_at280 :
    caEval exHum exHeight exDens exMix exAtm1 exAtmOld exSurfCold exLapse6
        280
      = ([301, 310], 30000) := by
  rw [caEval, exLapse6_lp]
  norm_num [create_and_check_profile, pairEnergyDiff, convective_profile,
    lapseCandidate, dpLapse, npDiff, cumsum, cumsumFrom, lastExceed?,
    update_temporary_atmosphere, water_vapour_profile, npGradient,
    npGradientAux, zipWith3, energy_difference_dry, latent_heat_difference,
    exAtm1, exAtmOld, exSurfCold, exHum, exHeight, exDens, exMix, g, Lv,
    List.zipWith]

theorem exInit6 : caInit exHum exHeight exDens exMix exAtm1 exAtmOld
      exSurfCold exLapse6
    = ⟨300, 280, 200000000000000, 30000, [301, 310], 280⟩ := by
  have htemp : exSurfCold.temperature = 280 := rfl
  simp only [caInit, htemp, exEval6_at280]
  norm_num [exAtm1, exSurfCold, minList]

/-- C6 (counterexample): on this instance `convective_adjustment` reaches
the root-finding loop (both loop-guard conditions hold at entry) with
`diff_neg = 2e14 > 0` — the sign invariant `diff_neg ≤ 0` is already
violated — and the first proposed surface temperature falls strictly
below BOTH bounds, violating
`surfaceTneg ≤ surfaceT ≤ surfaceTpos`. -/
theorem rf_loop_invariant_cex :
    exSurfCold.fixedTemperature = false
    ∧ loopCond (exSurfCold.heat_capacity / 10 ^ 13)
        (caInit exHum exHeight exDens exMix exAtm1 exAtmOld exSurfCold
          exLapse6)
    ∧ 0 < (caInit exHum exHeight exDens exMix exAtm1 exAtmOld exSurfCold
        exLapse6).diff_neg
    ∧ proposedT (caInit exHum exHeight exDens exMix exAtm1 exAtmOld
        exSurfCold exLapse6)
      < (caInit exHum exHeight exDens exMix exAtm1 exAtmOld exSurfCold
        exLapse6).surfaceTneg
    ∧ proposedT (caInit exHum exHeight exDens exMix exAtm1 exAtmOld
        exSurfCold exLapse6)
      < (caInit exHum exHeight exDens exMix exAtm1 exAtmOld exSurfCold
        exLapse6).surfaceTpos := by
  rw [exInit6]
  refine ⟨rfl, ⟨by norm_num [exSurfCold], by norm_num [exSurfCold]⟩,
    by norm_num, ?_, ?_⟩
  · norm_num [proposedT]
  · norm_num [proposedT]

/-! The C8 instance: the current atmosphere holds water (`H2O = [1, 0]`)
while the previous-timestep atmosphere is dry, so the two possible
latent-term references differ. -/

def exAtm8 : Atm :=
  ⟨[90000, 50000], [100000, 70000, 40000], [300, 310], [1, 0], [0, 100],
   [g, g]⟩

/-- C8 (counterexample): at this input the energy difference computed by
`create_and_check_profile` is `250100000` (the latent term references the
previous-timestep water content), while the value described by the claim
(reference water content from the current radiatively updated atmosphere)
is `0`. -/
theorem cacp_latent_reference_cex :
    (create_and_check_profile exHum exHeight exDens exMix exAtm8 exAtmOld
        exSurf 300 [0, 0]).2 = 250100000
    ∧ (create_and_check_profile_claimC8 exHum exHeight exDens exMix exAtm8
        exAtmOld exSurf 300 [0, 0]).2 = 0
    ∧ (250100000 : ℚ) ≠ 0 := by
  refine ⟨?_, ?_, by norm_num⟩ <;>
    norm_num [create_and_check_profile, create_and_check_profile_claimC8,
      pairEnergyDiff, convective_profile, lapseCandidate, dpLapse, npDiff,
      cumsum, cumsumFrom, lastExceed?, update_temporary_atmosphere,
      water_vapour_profile, npGradient, npGradientAux, zipWith3,
      energy_difference_dry, latent_heat_difference, exAtm8, exAtmOld,
      exSurf, exHum, exHeight, exDens, exMix, g, Lv, List.zipWith]

/-- Witness for C8 at the same instance: the three water-content profiles
all have length two, and the decomposition equation holds there. -/
theorem cacp_latent_reference_witness :
    (water_vapour_profile exDens exMix
        (update_temporary_atmosphere exHum exHeight exAtm8
          (convective_profile exAtm8.T exAtm8.plev exAtm8.phlev 300
            [0, 0]))).length
      = (water_vapour_profile exDens exMix exAtm8).length
    ∧ (water_vapour_profile exDens exMix exAtm8).length
      = (water_vapour_profile exDens exMix exAtmOld).length
    ∧ (create_and_check_profile exHum exHeight exDens exMix exAtm8
        exAtmOld exSurf 300 [0, 0]).2
      = (create_and_check_profile_claimC8 exHum exHeight exDens exMix
          exAtm8 exAtmOld exSurf 300 [0, 0]).2
        + latent_heat_difference (water_vapour_profile exDens exMix exAtm8)
            (water_vapour_profile exDens exMix exAtmOld) :=
  ⟨by norm_num [water_vapour_profile, update_temporary_atmosphere,
      convective_profile, lapseCandidate, dpLapse, npDiff, cumsum,
      cumsumFrom, lastExceed?, npGradient, npGradientAux, zipWith3,
      exAtm8, exHum, exHeight, exDens, exMix, List.zipWith],
   by norm_num [water_vapour_profile, npGradient, npGradientAux, zipWith3,
      exAtm8, exAtmOld, exDens, exMix, List.zipWith],
   cacp_latent_reference exHum exHeight exDens exMix exAtm8 exAtmOld
     exSurf 300 [0, 0]
     (by norm_num [water_vapour_profile, update_temporary_atmosphere,
        convective_profile, lapseCandidate, dpLapse, npDiff, cumsum,
        cumsumFrom, lastExceed?, npGradient, npGradientAux, zipWith3,
        exAtm8, exHum, exHeight, exDens, exMix, List.zipWith])
     (by norm_num [water_vapour_profile, npGradient, npGradientAux,
        zipWith3, exAtm8, exAtmOld, exDens, exMix, List.zipWith])⟩

/-- Witness for C3 at a concrete input: radiative profile `[300, 310]`,
candidate `[301, 241]` — the candidate exceeds the radiative profile at
level 0 only, and the clipping description of
`convective_profile_clipping` holds. -/
theorem convective_profile_clipping_witness :
    0 < ([300, 310] : List ℚ).length
    ∧ ([90000, 50000] : List ℚ).length = ([300, 310] : List ℚ).length
    ∧ ([21/10000, -3/2000] : List ℚ).length = ([300, 310] : List ℚ).length
    ∧ (((∀ i, i < ([300, 310] : List ℚ).length →
        (lapseCandidate ([90000, 50000] : List ℚ) [100000, 70000, 40000] 280
          [21/10000, -3/2000]).getD i 0
          ≤ ([300, 310] : List ℚ).getD i 0) →
      convective_profile ([300, 310] : List ℚ) [90000, 50000] [100000, 70000, 40000]
        280 [21/10000, -3/2000] = [300, 310])
    ∧ (∀ j, j < ([300, 310] : List ℚ).length →
        ([300, 310] : List ℚ).getD j 0
          < (lapseCandidate ([90000, 50000] : List ℚ) [100000, 70000, 40000] 280
              [21/10000, -3/2000]).getD j 0 →
        ∃ c, c < ([300, 310] : List ℚ).length ∧
          ([300, 310] : List ℚ).getD c 0
            < (lapseCandidate ([90000, 50000] : List ℚ) [100000, 70000, 40000] 280
                [21/10000, -3/2000]).getD c 0 ∧
          (∀ i, c < i → i < ([300, 310] : List ℚ).length →
            (lapseCandidate ([90000, 50000] : List ℚ) [100000, 70000, 40000] 280
              [21/10000, -3/2000]).getD i 0
              ≤ ([300, 310] : List ℚ).getD i 0) ∧
          (convective_profile ([300, 310] : List ℚ) [90000, 50000]
            [100000, 70000, 40000] 280 [21/10000, -3/2000]).length
            = ([300, 310] : List ℚ).length ∧
          (∀ i, i ≤ c →
            (convective_profile ([300, 310] : List ℚ) [90000, 50000]
              [100000, 70000, 40000] 280 [21/10000, -3/2000]).getD i 0
              = (lapseCandidate ([90000, 50000] : List ℚ) [100000, 70000, 40000] 280
                  [21/10000, -3/2000]).getD i 0) ∧
          (∀ i, c < i → i < ([300, 310] : List ℚ).length →
            (convective_profile ([300, 310] : List ℚ) [90000, 50000]
              [100000, 70000, 40000] 280 [21/10000, -3/2000]).getD i 0
              = ([300, 310] : List ℚ).getD i 0))) :=
  ⟨by norm_num, by norm_num, by norm_num,
   convective_profile_clipping ([300, 310] : List ℚ) [90000, 50000]
     [100000, 70000, 40000] [21/10000, -3/2000] 280 (by norm_num)
     (by norm_num) (by norm_num)⟩

/-! The C4 instance: a crafted humidity collaborator makes the candidate
energy difference equal `2` for every proposed surface temperature at or
above the threshold `exThr` and `1/2` below it.  The loop then bisects
the bracket `[300 - 2e-13, 300]`: iterations 1..99 keep `diff_pos = 2`,
and the 100th iteration produces `diff_pos = 1/2 < near_zero = 1` — a
converged candidate — yet the `counter == 100` check raises first. -/

def exThr : ℚ := 300 - 2/10^13 + (3/2) * ((2/10^13) / 2^100)

def exDry4 (s : ℚ) : ℚ :=
  30000 * (s - (300 - 2/10^13)) + 10^13 * (s - 300)

def exTarget4 (s : ℚ) : ℚ := if s < exThr then 1/2 else 2

def exHum4 : Atm → List ℚ :=
  fun a => [(exTarget4 (a.T.getD 0 0) - exDry4 (a.T.getD 0 0)) / Lv, 0]

def exHeight4 : Atm → List ℚ := fun _ => [0, 1]

def exAtm4 : Atm :=
  ⟨[90000, 50000], [100000, 70000, 40000], [300 - 2/10^13, 310], [0, 0],
   [0, 100], [g, g]⟩

def exLapse4 : List ℚ := [0, 0]

theorem exLapse4_lp : caLp exDens exAtm4 exLapse4 = [0, 0] := by
  norm_num [caLp, pressure_lapse_rate, exDens, exAtm4, exLapse4,
    interp1dExtrapolate, sortPts, insortPt, interpSegs, lineThrough,
    earth_standard_gravity, List.zip]

theorem exEval4_eq (s : ℚ) (h1 : 300 - 2/10^13 < s) (h2 : s ≤ 300) :
    caEval exHum4 exHeight4 exDens exMix exAtm4 exAtmOld exSurf exLapse4 s
      = ([s, 310], exTarget4 s) := by
  rw [caEval, exLapse4_lp]
  have hT : exAtm4.T = [300 - 2/10^13, 310] := rfl
  have hcand : lapseCandidate exAtm4.plev exAtm4.phlev s [0, 0]
      = [s, s] := by
    norm_num [lapseCandidate, dpLapse, npDiff, cumsum, cumsumFrom, exAtm4,
      List.zipWith]
  have hinner : lastExceed? [s] ([310] : List ℚ) = none := by
    show (if (310 : ℚ) < s then some 0 else none) = none
    rw [if_neg (by linarith)]
  have hlex : lastExceed? [s, s] ([300 - 2/10^13, 310] : List ℚ)
      = some 0 := by
    show (match lastExceed? [s] ([310] : List ℚ) with
      | some i => some (i + 1)
      | none => if (300 - 2/10^13 : ℚ) < s then some 0 else none)
      = some 0
    rw [hinner]
    show (if (300 - 2/10^13 : ℚ) < s then some 0 else none) = some 0
    rw [if_pos h1]
  have hTcon : convective_profile exAtm4.T exAtm4.plev exAtm4.phlev s
      [0, 0] = [s, 310] := by
    simp only [convective_profile, hT, hcand, hlex]
    rfl
  simp only [create_and_check_profile, hTcon]
  refine congrArg (Prod.mk [s, 310]) ?_
  have hwvp : water_vapour_profile exDens exMix
      (update_temporary_atmosphere exHum4 exHeight4 exAtm4 [s, 310])
      = [(exTarget4 s - exDry4 s) / Lv, 0] := by
    norm_num [water_vapour_profile, update_temporary_atmosphere,
      npGradient, npGradientAux, zipWith3, exAtm4, exHum4, exHeight4,
      exDens, exMix, List.zipWith]
  have hold : water_vapour_profile exDens exMix exAtmOld = [0, 0] := by
    norm_num [water_vapour_profile, npGradient, npGradientAux, zipWith3,
      exAtmOld, exDens, exMix, List.zipWith]
  simp only [pairEnergyDiff, hwvp, hold]
  have hLv : Lv = 2501000 := rfl
  norm_num [energy_difference_dry, latent_heat_difference, npDiff,
    zipWith3, exAtm4, exSurf, exDry4, g, hLv, List.zipWith]
  ring

theorem exTarget4_at300 : exTarget4 300 = 2 := by
  rw [exTarget4, if_neg]
  rw [exThr]
  norm_num

theorem exInit4 : caInit exHum4 exHeight4 exDens exMix exAtm4 exAtmOld
      exSurf exLapse4
    = ⟨300 - 2/10^13, 300, -2, 2, [300, 310], 300⟩ := by
  have h300 := exEval4_eq 300 (by norm_num) le_rfl
  simp only [caInit, show exSurf.temperature = (300 : ℚ) from rfl, h300,
    exTarget4_at300]
  norm_num [exAtm4, exSurf, minList]

theorem exTarget4_big (k : ℕ) (hk : k ≤ 99) :
    exTarget4 (300 - 2/10^13 + (2/10^13) / 2 ^ k) = 2 := by
  rw [exTarget4, if_neg]
  rw [exThr]
  push_neg
  have hgp : (0 : ℚ) < 2/10^13 := by norm_num
  have hpow : (2 : ℚ) ^ k ≤ 2 ^ 99 := by
    apply pow_le_pow_right₀ (by norm_num) hk
  have step1 : (2/10^13 : ℚ) / 2 ^ 99 ≤ (2/10^13) / 2 ^ k := by
    gcongr
  have step2 : (3/2 : ℚ) * ((2/10^13) / 2 ^ 100) ≤ (2/10^13) / 2 ^ 99 := by
    have e100 : ((2 : ℚ) ^ 100) = 2 ^ 99 * 2 := pow_succ 2 99
    rw [e100]
    have e : (3/2 : ℚ) * ((2/10^13) / (2 ^ 99 * 2))
        = (3/4) * ((2/10^13) / 2 ^ 99) := by ring
    rw [e]
    have hpos : (0 : ℚ) < (2/10^13) / 2 ^ 99 := by positivity
    linarith
  linarith

theorem exTarget4_small : exTarget4 (300 - 2/10^13 + (2/10^13) / 2 ^ 100)
    = 1/2 := by
  rw [exTarget4, if_pos]
  rw [exThr]
  have hpos : (0 : ℚ) < (2/10^13) / 2 ^ 100 := by positivity
  linarith

theorem exState4 (k : ℕ) (hk : k ≤ 99) :
    (convStep (caEval exHum4 exHeight4 exDens exMix exAtm4 exAtmOld exSurf
        exLapse4))^[k]
      (caInit exHum4 exHeight4 exDens exMix exAtm4 exAtmOld exSurf
        exLapse4)
    = ⟨300 - 2/10^13, 300 - 2/10^13 + (2/10^13) / 2 ^ k, -2, 2,
       [300 - 2/10^13 + (2/10^13) / 2 ^ k, 310],
       300 - 2/10^13 + (2/10^13) / 2 ^ k⟩ := by
  induction k with
  | zero =>
    rw [Function.iterate_zero_apply, exInit4]
    norm_num
  | succ k ih =>
    rw [Function.iterate_succ_apply', ih (by omega)]
    have hprop : proposedT ⟨300 - 2/10^13,
        300 - 2/10^13 + (2/10^13) / 2 ^ k, -2, 2,
        [300 - 2/10^13 + (2/10^13) / 2 ^ k, 310],
        300 - 2/10^13 + (2/10^13) / 2 ^ k⟩
        = 300 - 2/10^13 + (2/10^13) / 2 ^ (k + 1) := by
      rw [proposedT]
      show (300 - 2/10^13 : ℚ)
          + (300 - 2/10^13 + (2/10^13) / 2 ^ k - (300 - 2/10^13))
            * (-(-2)) / (-(-2) + 2)
        = 300 - 2/10^13 + (2/10^13) / 2 ^ (k + 1)
      rw [pow_succ]
      ring
    have hposd : (0 : ℚ) < (2/10^13) / 2 ^ (k + 1) := by positivity
    have hle : (2/10^13 : ℚ) / 2 ^ (k + 1) ≤ 2/10^13 := by
      apply div_le_self (by norm_num)
      have := pow_le_pow_right₀ (a := (2 : ℚ)) (by norm_num)
        (Nat.zero_le (k + 1))
      simpa using this
    have heval := exEval4_eq (300 - 2/10^13 + (2/10^13) / 2 ^ (k + 1))
      (by linarith) (by linarith)
    simp only [convStep, hprop, heval, exTarget4_big (k + 1) (by omega)]
    rw [if_pos (by norm_num)]

/-- C4 (counterexample): on this instance `convective_adjustment` raises
the fatal `ValueError` although the candidate proposed on the 100th
iteration converges — after the 100th loop body the state has
`diff_pos = 1/2 < near_zero = 1`, so the loop guard no longer holds, and
the claim's "any call whose candidate converges within the cap returns
that candidate without raising" fails at this input. -/
theorem conv_loop_raises_despite_convergence_cex :
    convective_adjustment exHum4 exHeight4 exDens exMix exAtm4 exAtmOld
        exLapse4 exSurf = Except.error noProfileMsg
    ∧ ¬ loopCond (exSurf.heat_capacity / 10 ^ 13)
        ((convStep (caEval exHum4 exHeight4 exDens exMix exAtm4 exAtmOld
            exSurf exLapse4))^[100]
          (caInit exHum4 exHeight4 exDens exMix exAtm4 exAtmOld exSurf
            exLapse4)) := by
  have hstep100 : (convStep (caEval exHum4 exHeight4 exDens exMix exAtm4
        exAtmOld exSurf exLapse4))^[100]
      (caInit exHum4 exHeight4 exDens exMix exAtm4 exAtmOld exSurf
        exLapse4)
      = ⟨300 - 2/10^13, 300 - 2/10^13 + (2/10^13) / 2 ^ 100, -2, 1/2,
         [300 - 2/10^13 + (2/10^13) / 2 ^ 100, 310],
         300 - 2/10^13 + (2/10^13) / 2 ^ 100⟩ := by
    rw [show (100 : ℕ) = 99 + 1 from rfl, Function.iterate_succ_apply',
      exState4 99 le_rfl]
    have hprop : proposedT ⟨300 - 2/10^13,
        300 - 2/10^13 + (2/10^13) / 2 ^ 99, -2, 2,
        [300 - 2/10^13 + (2/10^13) / 2 ^ 99, 310],
        300 - 2/10^13 + (2/10^13) / 2 ^ 99⟩
        = 300 - 2/10^13 + (2/10^13) / 2 ^ 100 := by
      rw [proposedT]
      show (300 - 2/10^13 : ℚ)
          + (300 - 2/10^13 + (2/10^13) / 2 ^ 99 - (300 - 2/10^13))
            * (-(-2)) / (-(-2) + 2)
        = 300 - 2/10^13 + (2/10^13) / 2 ^ 100
      rw [show ((2 : ℚ) ^ 100) = 2 ^ 99 * 2 from pow_succ 2 99]
      ring
    have hposd : (0 : ℚ) < (2/10^13) / 2 ^ 100 := by positivity
    have hle : (2/10^13 : ℚ) / 2 ^ 100 ≤ 2/10^13 := by
      apply div_le_self (by norm_num)
      have := pow_le_pow_right₀ (a := (2 : ℚ)) (by norm_num)
        (Nat.zero_le 100)
      simpa using this
    have heval := exEval4_eq (300 - 2/10^13 + (2/10^13) / 2 ^ 100)
      (by linarith) (by linarith)
    simp only [convStep, hprop, heval, exTarget4_small]
    rw [if_pos (by norm_num)]
  constructor
  · rw [convective_adjustment_loop_eq exHum4 exHeight4 exDens exMix exAtm4
      exAtmOld exLapse4 exSurf rfl
      (by rw [show exSurf.temperature = (300 : ℚ) from rfl,
            exEval4_eq 300 (by norm_num) le_rfl, exTarget4_at300]
          norm_num [exSurf])
      (by norm_num [exSurf, exAtm4, minList])]
    rw [adjustLoop_error_iff]
    intro k hk
    rw [exState4 k hk]
    exact ⟨by norm_num [exSurf], by norm_num [exSurf]⟩
  · rw [hstep100]
    norm_num [exSurf, loopCond]

/-- Witness for C4 at the loop of the C5/C1 instance: the
characterization of the fatal raise holds there. -/
theorem conv_loop_error_iff_witness :
    adjustLoop (caEval exHum exHeight exDens exMix exAtm5 exAtmOld exSurf
        exLapse5) (exSurf.heat_capacity / 10 ^ 13) 99
        (caInit exHum exHeight exDens exMix exAtm5 exAtmOld exSurf
          exLapse5)
      = Except.error noProfileMsg
    ↔ ∀ k, k ≤ 99 →
        loopCond (exSurf.heat_capacity / 10 ^ 13)
          ((convStep (caEval exHum exHeight exDens exMix exAtm5 exAtmOld
            exSurf exLapse5))^[k]
            (caInit exHum exHeight exDens exMix exAtm5 exAtmOld exSurf
              exLapse5)) :=
  conv_loop_error_iff exHum exHeight exDens exMix exAtm5 exAtmOld exSurf
    exLapse5

/-- Witness for C5 at the loop of the C5/C1 instance: the
characterization of the loop's return holds there. -/
theorem conv_loop_ok_iff_witness :
    adjustLoop (caEval exHum exHeight exDens exMix exAtm5 exAtmOld exSurf
        exLapse5) (exSurf.heat_capacity / 10 ^ 13) 99
        (caInit exHum exHeight exDens exMix exAtm5 exAtmOld exSurf
          exLapse5)
      = Except.ok ([300 + 1/15000 - 3/10000000000000, 310],
          300 - 1/10000000000000)
    ↔ ∃ k, k ≤ 99 ∧
        ¬ loopCond (exSurf.heat_capacity / 10 ^ 13)
          ((convStep (caEval exHum exHeight exDens exMix exAtm5 exAtmOld
            exSurf exLapse5))^[k]
            (caInit exHum exHeight exDens exMix exAtm5 exAtmOld exSurf
              exLapse5)) ∧
        (∀ j, j < k →
          loopCond (exSurf.heat_capacity / 10 ^ 13)
            ((convStep (caEval exHum exHeight exDens exMix exAtm5
              exAtmOld exSurf exLapse5))^[j]
              (caInit exHum exHeight exDens exMix exAtm5 exAtmOld exSurf
                exLapse5))) ∧
        ([300 + 1/15000 - 3/10000000000000, 310],
          (300 - 1/10000000000000 : ℚ))
          = (((convStep (caEval exHum exHeight exDens exMix exAtm5
                exAtmOld exSurf exLapse5))^[k]
              (caInit exHum exHeight exDens exMix exAtm5 exAtmOld exSurf
                exLapse5)).T_con,
             ((convStep (caEval exHum exHeight exDens exMix exAtm5
                exAtmOld exSurf exLapse5))^[k]
              (caInit exHum exHeight exDens exMix exAtm5 exAtmOld exSurf
                exLapse5)).surfaceT) :=
  conv_loop_ok_iff exHum exHeight exDens exMix exAtm5 exAtmOld exSurf
    exLapse5 ([300 + 1/15000 - 3/10000000000000, 310],
      300 - 1/10000000000000)
